import Mathlib

/-!
# Admission webhook: policy checks and validators

A shallow embedding of the admission handlers of the webhook
(`pkg/resources/validation`, `pkg/resources/mutation`, `pkg/server`) and the
properties their specification states about them.

Conventions of the embedding:

* a Go `map[string]string` is an association list read with `mapIndex`
  (a missing key reads as the empty string) and `mapHas` (the comma-ok form);
* a Go pointer or interface that may be nil is an `Option`;
* a call that can panic (nil dereference, failed type assertion, index out
  of range) returns an `Outcome`, whose `panicked` constructor is the fault;
* a Go `error` is an `Option Error`, `none` being the nil error;
* clients and decoders that live outside the sources at hand are parameters
  of the functions that call them.
-/

set_option linter.dupNamespace false

namespace Webhook

/-! ## Data model -/

/-- Go `map[string]string`; a nil map is the empty list. -/
abbrev StringMap := List (String × String)

/-- Go `m[k]` on a `map[string]string`: the value, or the zero value `""`. -/
def mapIndex (m : StringMap) (k : String) : String :=
  (m.lookup k).getD ""

/-- Go `_, ok := m[k]`. -/
def mapHas (m : StringMap) (k : String) : Bool :=
  (m.lookup k).isSome

/-- Result of a call that either returns a value or panics. -/
inductive Outcome (α : Type) where
  | returned (a : α)
  | panicked
  deriving DecidableEq, Repr

/-- Go `error` values: a plain message, or `fmt.Errorf("...: %w", err)`. -/
inductive Error where
  | msg (s : String)
  | wrap (text : String) (inner : Error)
  deriving DecidableEq, Repr

/-- Values of `admissionv1.Operation`, a string type. -/
abbrev Operation := String

def Create : Operation := "CREATE"
def Update : Operation := "UPDATE"
def Delete : Operation := "DELETE"
def Connect : Operation := "CONNECT"

/-- The constant `metav1.StatusReasonInvalid`. -/
def StatusReasonInvalid : String := "Invalid"
/-- The constant `metav1.StatusReasonUnauthorized`. -/
def StatusReasonUnauthorized : String := "Unauthorized"

/-- The constant `http.StatusBadRequest`. -/
def StatusBadRequest : Nat := 400
/-- The constant `http.StatusUnauthorized`. -/
def StatusUnauthorized : Nat := 401
/-- The constant `http.StatusForbidden`. -/
def StatusForbidden : Nat := 403
/-- The constant `http.StatusUnprocessableEntity`. -/
def StatusUnprocessableEntity : Nat := 422

/-- The type `authenticationv1.UserInfo`. -/
structure UserInfo where
  Username : String := ""
  UID : String := ""
  Groups : List String := []
  deriving DecidableEq, Repr

/-- The type `metav1.Status`, with the fields the handlers set. -/
structure Status where
  Status : String := ""
  Message : String := ""
  Reason : String := ""
  Code : Nat := 0
  deriving DecidableEq, Repr

/-- The type `metav1.ObjectMeta`: what `metav1.Object` gives access to. -/
structure ObjectMeta where
  Name : String := ""
  Namespace : String := ""
  Labels : StringMap := []
  Annotations : StringMap := []
  deriving DecidableEq, Repr

/-- The type `runtime.RawExtension`: undecoded object bytes. -/
structure RawExtension where
  Raw : List UInt8 := []
  deriving DecidableEq, Repr

/-- The type `admission.Request` (an `admissionv1.AdmissionRequest`; the
context it also carries has no counterpart here). -/
structure Request where
  Operation : Operation := ""
  UserInfo : UserInfo := {}
  Object : RawExtension := {}
  OldObject : RawExtension := {}
  DryRun : Option Bool := none
  deriving DecidableEq, Repr

/-- The type `admissionv1.AdmissionResponse`. -/
structure AdmissionResponse where
  UID : String := ""
  Allowed : Bool := false
  Result : Option Status := none
  Patch : Option (List UInt8) := none
  PatchType : Option String := none
  deriving DecidableEq, Repr

/-! ## `validation.CheckCreatorID` -/

/-- `CheckCreatorID` of `pkg/resources/validation/validation.go`.
`CreatorIDAnn` is the annotation key `auth.CreatorIDAnn`; `oldObj` and
`newObj` are `metav1.Object` interface values, `none` being nil. The result
`returned none` is the nil status (no denial). -/
def CheckCreatorID (CreatorIDAnn : String) (request : Request)
    (oldObj newObj : Option ObjectMeta) : Outcome (Option Status) :=
  let status : Status :=
    { Status := "Failure", Reason := StatusReasonInvalid, Code := StatusUnprocessableEntity }
  match newObj with
  | none => .panicked
  | some newObj =>
    let newAnnotations := newObj.Annotations
    if request.Operation == Create then
      if mapIndex newAnnotations CreatorIDAnn != request.UserInfo.Username then
        .returned (some { status with Message := "creatorID annotation does not match user" })
      else
        .returned none
    else if !mapHas newAnnotations CreatorIDAnn then
      .returned none
    else
      match oldObj with
      | none => .panicked
      | some oldObj =>
        if mapIndex oldObj.Annotations CreatorIDAnn != mapIndex newAnnotations CreatorIDAnn then
          .returned (some { status with Message := "creatorID annotation cannot be changed" })
        else
          .returned none

/-! ## `machineconfig.Validator` -/

namespace machineconfig

/-- `Validator.Admit` of `pkg/resources/validation/machineconfig/machineconfig.go`.
`decode` is `v1.UnstructuredOldAndNewFromRequest`, which on success yields the
old and the new object. The result is the pair (response, error). -/
def Validator.Admit (CreatorIDAnn : String)
    (decode : Request → Except Error (ObjectMeta × ObjectMeta))
    (request : Request) : Outcome (Option AdmissionResponse × Option Error) :=
  match decode request with
  | .error err => .returned (none, some err)
  | .ok (oldUnstrConfig, unstrConfig) =>
    let response : AdmissionResponse := {}
    match CheckCreatorID CreatorIDAnn request (some oldUnstrConfig) (some unstrConfig) with
    | .panicked => .panicked
    | .returned result =>
      let response := { response with Result := result }
      if response.Result.isSome then
        .returned (some response, none)
      else
        .returned (some { response with Allowed := true }, none)

end machineconfig

/-! ## `machineconfigs.Mutator` -/

namespace machineconfigs

/-- `Mutator.Admit` of `pkg/resources/mutation/machineconfigs/machineconfigs.go`.
`decode` is `v1.UnstructuredFromRequest` and `setCreatorIDAnnotation` is
`mutation.SetCreatorIDAnnotation`, which writes the patch into the response
it is handed (here: returns the updated response) or fails. -/
def Mutator.Admit
    (decode : Request → Except Error ObjectMeta)
    ( setCreatorIDAnnotation :
      Request → AdmissionResponse → RawExtension → ObjectMeta → Except Error AdmissionResponse)
    (request : Request) : Option AdmissionResponse × Option Error :=
  if request.DryRun != none && request.DryRun.getD false then
    (some { Allowed := true }, none)
  else
    match decode request with
    | .error err => (none, some (.wrap "failed to get object from request: " err))
    | .ok config =>
      let response : AdmissionResponse := {}
      match setCreatorIDAnnotation request response request.Object config with
      | .error err => (none, some (.wrap "failed to set creatorIDAnnotation: " err))
      | .ok response => (some { response with Allowed := true }, none)

end machineconfigs

/-! ## `token.mutator` -/

namespace token

/-- The type `v3.Principal`, by its name. -/
structure Principal where
  Name : String := ""
  deriving DecidableEq, Repr

/-- The type `v3.Token`, with the fields the mutator reads; a nil
`GroupPrincipals` slice is `none`. -/
structure Token where
  Name : String := ""
  GroupPrincipals : Option (List Principal) := none
  deriving DecidableEq, Repr

/-- A `runtime.Object` interface value by its dynamic type: a `*v3.Token`
or anything else (nil is `none` of the `Option` around it). -/
inductive RuntimeObject where
  | token (t : Token)
  | other
  deriving DecidableEq, Repr

/-- `tokenObject` of `pkg/resources/mutation/token/token.go`. `decodeOld` and
`decodeNew` are `request.DecodeOldObject` and `request.DecodeObject`; the
unchecked type assertion `token.(*v3.Token)` panics on nil and on any other
dynamic type. -/
def tokenObject
    (decodeOld decodeNew : Request → Option RuntimeObject × Option Error)
    (request : Request) : Outcome (Token × Option Error) :=
  let (token, err) :=
    if request.Operation == Delete then decodeOld request else decodeNew request
  match token with
  | some (.token t) => .returned (t, err)
  | _ => .panicked

/-- `mutator.Admit` of `pkg/resources/mutation/token/token.go`. The response
is an in-out argument: the result carries its final state next to the
returned error. `createPatch` is `patch.CreatePatch`. -/
def mutator.Admit
    (decodeOld decodeNew : Request → Option RuntimeObject × Option Error)
    (createPatch : Token → Token → AdmissionResponse → AdmissionResponse × Option Error)
    (response : AdmissionResponse) (request : Request) :
    Outcome (AdmissionResponse × Option Error) :=
  if request.DryRun != none && request.DryRun.getD false then
    .returned ({ response with Allowed := true }, none)
  else
    match tokenObject decodeOld decodeNew request with
    | .panicked => .panicked
    | .returned (token, err) =>
      match err with
      | some err => .returned (response, some err)
      | none =>
        let newToken := token
        if newToken.GroupPrincipals == none then
          let newToken := { newToken with GroupPrincipals := some [] }
          .returned (createPatch token newToken response)
        else
          .returned ({ response with Allowed := true }, none)

end token

/-! ## `project.Validator` -/

namespace project

def EnforceLabel : String := "pod-security.kubernetes.io/enforce"
def AuditLabel : String := "pod-security.kubernetes.io/audit"
def WarnLabel : String := "pod-security.kubernetes.io/warn"

/-- The type `authorizationv1.ResourceAttributes`. -/
structure ResourceAttributes where
  Namespace : String := ""
  Verb : String := ""
  Group : String := ""
  Version : String := ""
  Resource : String := ""
  Subresource : String := ""
  Name : String := ""
  deriving DecidableEq, Repr

/-- The type `authorizationv1.SubjectAccessReviewSpec`; a nil
`ResourceAttributes` pointer is `none`. -/
structure SubjectAccessReviewSpec where
  ResourceAttributes : Option ResourceAttributes := none
  User : String := ""
  Groups : List String := []
  UID : String := ""
  deriving DecidableEq, Repr

/-- The type `authorizationv1.SubjectAccessReviewStatus`. -/
structure SubjectAccessReviewStatus where
  Allowed : Bool := false
  Denied : Bool := false
  Reason : String := ""
  EvaluationError : String := ""
  deriving DecidableEq, Repr

/-- The type `authorizationv1.SubjectAccessReview`. -/
structure SubjectAccessReview where
  Spec : SubjectAccessReviewSpec := {}
  Status : SubjectAccessReviewStatus := {}
  deriving DecidableEq, Repr

/-- What a call of a handler leaves behind: its outcome and the
SubjectAccessReviews it created, in order. -/
structure Run (α : Type) where
  outcome : Outcome α
  sarCalls : List SubjectAccessReview
  deriving DecidableEq, Repr

/-- `isUpdatingPSAConfig` of `pkg/resources/validation/project/project.go`:
the loop over the three labels, returning at the first difference. -/
def isUpdatingPSAConfig (oldns ns : ObjectMeta) : Bool :=
  [EnforceLabel, AuditLabel, WarnLabel].any
    (fun label => mapIndex oldns.Labels label != mapIndex ns.Labels label)

/-- The `&v1.SubjectAccessReview{...}` literal that `Validator.Admit` of
`pkg/resources/validation/project/project.go` hands to `v.sar.Create`. -/
def Validator.review (ns : ObjectMeta) (request : Request) : SubjectAccessReview :=
  { Spec :=
      { ResourceAttributes := some
          { Name := ns.Namespace
            Verb := "updatepsa"
            Group := "management.cattle.io"
            Version := "v3"
            Resource := "projects"
            Namespace := ns.Namespace }
        User := request.UserInfo.Username
        Groups := request.UserInfo.Groups
        UID := request.UserInfo.UID } }

/-- `Validator.Admit` of `pkg/resources/validation/project/project.go`.
`decode` is `objectsv1.NamespaceOldAndNewFromRequest`, whose old namespace
may be nil; `sar` is `v.sar.Create`. Writing `response.Result.Code` while
`response.Result` is nil is a nil pointer dereference. -/
def Validator.Admit
    (decode : Request → Except Error (Option ObjectMeta × ObjectMeta))
    (sar : SubjectAccessReview → Except Error SubjectAccessReview)
    (request : Request) : Run (Option AdmissionResponse × Option Error) :=
  let response : AdmissionResponse := {}
  match decode request with
  | .error err =>
    match response.Result with
    | none => ⟨.panicked, []⟩
    | some result =>
      ⟨.returned (some { response with Result := some { result with Code := StatusBadRequest } },
        some (.wrap "failed to decode namespace from request: " err)), []⟩
  | .ok (oldns, ns) =>
    match oldns with
    | none => ⟨.returned (none, none), []⟩
    | some oldns =>
      let response :=
        if !isUpdatingPSAConfig oldns ns then { response with Allowed := true } else response
      let review := Validator.review ns request
      match sar review with
      | .error err => ⟨.returned (some response, some err), [review]⟩
      | .ok resp =>
        let response :=
          if resp.Status.Allowed then
            { response with Allowed := true }
          else
            { response with
              Result := some
                { Status := "Failure"
                  Message := resp.Status.Reason
                  Reason := StatusReasonUnauthorized
                  Code := StatusForbidden } }
        ⟨.returned (some response, none), [review]⟩

end project

/-! ## `projectpodsecuritytemplatebinding.projectPodSecurityTBValidator` -/

/-- Go `strings.Split` on the characters of a string, for a separator of one
character: the pieces between the occurrences of `sep`, the empty ones
included. -/
def splitChars (sep : Char) : List Char → List (List Char)
  | [] => [[]]
  | c :: cs =>
    if c = sep then
      [] :: splitChars sep cs
    else
      match splitChars sep cs with
      | [] => [[c]]
      | piece :: pieces => (c :: piece) :: pieces

/-- Go `strings.Split(s, sep)` for a separator of one character. -/
def stringsSplit (s : String) (sep : Char) : List String :=
  (splitChars sep s.toList).map String.mk

namespace projectpodsecuritytemplatebinding

/-- The type `v3.PodSecurityPolicyTemplateProjectBinding`, with the fields
of its own next to the object metadata. -/
structure PodSecurityPolicyTemplateProjectBinding where
  ObjectMeta : ObjectMeta := {}
  PodSecurityPolicyTemplateName : String := ""
  TargetProjectName : String := ""
  deriving DecidableEq, Repr

/-- The `&v1.SubjectAccessReview{...}` literal that
`projectPodSecurityTBValidator.Admit` hands to `c.sar.Create`. -/
def projectPodSecurityTBValidator.review (targetProject : String) (request : Request) :
    project.SubjectAccessReview :=
  { Spec :=
      { ResourceAttributes := some
          { Verb := "update"
            Version := "v3"
            Resource := "podsecuritypolicytemplateprojectbindings"
            Group := "management.cattle.io"
            Namespace := targetProject }
        User := request.UserInfo.Username
        Groups := request.UserInfo.Groups
        UID := request.UserInfo.UID } }

/-- `projectPodSecurityTBValidator.Admit` of
`pkg/resources/validation/projectpodsecuritytemplatebinding/projectpodsecuritytb.go`.
The response is an in-out argument: the result carries its final state next
to the returned error. `decode` is
`objectsv3.PodSecurityPolicyTemplateProjectBindingFromRequest` and `sar` is
`c.sar.Create`. Indexing the pieces of `strings.Split` at 1 panics when there
is one piece only. -/
def projectPodSecurityTBValidator.Admit
    (decode : Request → Except Error PodSecurityPolicyTemplateProjectBinding)
    (sar : project.SubjectAccessReview → Except Error project.SubjectAccessReview)
    (response : AdmissionResponse) (request : Request) :
    project.Run (AdmissionResponse × Option Error) :=
  match decode request with
  | .error err =>
    ⟨.returned (response, some (.wrap "failed to decode PSPTPB from request: " err)), []⟩
  | .ok psptpb =>
    match stringsSplit psptpb.TargetProjectName ':' with
    | _ :: targetProject :: _ =>
      let review := projectPodSecurityTBValidator.review targetProject request
      match sar review with
      | .error err => ⟨.returned (response, some err), [review]⟩
      | .ok resp =>
        let response :=
          if resp.Status.Allowed then
            { response with Allowed := true }
          else
            { response with
              Result := some
                { Status := "Failure"
                  Message := resp.Status.Reason
                  Reason := StatusReasonUnauthorized
                  Code := StatusUnauthorized } }
        ⟨.returned (response, none), [review]⟩
    | _ => ⟨.panicked, []⟩

end projectpodsecuritytemplatebinding

/-! ## `server`: the handler lists -/

namespace server

/-- The part of `clients.Clients` that `pkg/server` reads itself: the
multi-cluster-management flag. -/
structure Clients where
  MultiClusterManagement : Bool := false
  deriving DecidableEq, Repr

/-- The validating handlers `Validation` builds, each named by the
constructor or literal that makes it. -/
inductive ValidatingAdmissionHandler where
  /-- The handler `&feature.Validator{}`. -/
  | featureValidator
  /-- The handler `cluster.NewValidator(...)`. -/
  | clusterValidator
  /-- The handler `cluster.NewProvisioningClusterValidator(clients)`. -/
  | provisioningClusterValidator
  /-- The handler `&machineconfig.Validator{}`. -/
  | machineconfigValidator
  /-- The handler `nshandler.NewValidator(clients)`. -/
  | namespaceValidator
  /-- The handler `globalrole.NewValidator(...)`. -/
  | globalRoles
  /-- The handler `globalrolebinding.NewValidator(...)`. -/
  | globalRoleBindings
  /-- The handler `projectroletemplatebinding.NewValidator(...)`. -/
  | prtbs
  /-- The handler `clusterroletemplatebinding.NewValidator(...)`. -/
  | crtbs
  /-- The handler `roletemplate.NewValidator(...)`. -/
  | roleTemplates
  /-- The handler `projhandler.NewValidator(clients)`. -/
  | projects
  deriving DecidableEq, Repr

/-- The mutating handlers `Mutation` builds. -/
inductive MutatingAdmissionHandler where
  /-- The handler `&mutationCluster.Mutator{}`. -/
  | clusterMutator
  /-- The handler `fleetworkspace.NewMutator(clients)`. -/
  | fleetworkspaceMutator
  /-- The handler `&secret.Mutator{}`. -/
  | secretMutator
  /-- The handler `&machineconfigs.Mutator{}`. -/
  | machineconfigsMutator
  deriving DecidableEq, Repr

/-- `Validation` of `pkg/server/handlers.go`. -/
def Validation (clients : Clients) : List ValidatingAdmissionHandler × Option Error :=
  let handlers : List ValidatingAdmissionHandler :=
    [.featureValidator, .clusterValidator, .provisioningClusterValidator,
     .machineconfigValidator, .namespaceValidator]
  let handlers :=
    if clients.MultiClusterManagement then
      handlers ++ [.globalRoles, .globalRoleBindings, .prtbs, .crtbs, .roleTemplates, .projects]
    else
      handlers
  (handlers, none)

/-- `Mutation` of `pkg/server/handlers.go`. -/
def Mutation (_clients : Clients) : List MutatingAdmissionHandler × Option Error :=
  ([.clusterMutator, .fleetworkspaceMutator, .secretMutator, .machineconfigsMutator], none)

end server

/-! ## `server`: the webhook configuration change handler -/

/-- A Go slice seen from its first element: the backing array from there on
(its length is the capacity of the slice) and the length of the slice. -/
structure Slice (α : Type) where
  backing : List α
  len : Nat
  deriving DecidableEq, Repr

/-- The elements of a slice. -/
def Slice.toList {α : Type} (s : Slice α) : List α :=
  s.backing.take s.len

/-- Go `cap(s)`. -/
def Slice.cap {α : Type} (s : Slice α) : Nat :=
  s.backing.length

/-- Go `append(s, xs...)`: the slice it returns, and the backing array of `s`
after the call. With room in the backing array the new elements are written
behind the elements of `s`, in place; otherwise a new array is allocated and
the backing array of `s` is left alone. -/
def Slice.append {α : Type} (s : Slice α) (xs : List α) : Slice α × List α :=
  if s.len + xs.length ≤ s.cap then
    let backing := s.backing.take s.len ++ xs ++ s.backing.drop (s.len + xs.length)
    ({ backing := backing, len := s.len + xs.length }, backing)
  else
    ({ backing := s.toList ++ xs, len := s.len + xs.length }, s.backing)

namespace server

def serviceName : String := "rancher-webhook"
def «namespace» : String := "cattle-system"
def caName : String := "cattle-webhook-ca"
def validationPath : String := "/v1/webhook/validation"
def mutationPath : String := "/v1/webhook/mutation"
def clientPort : Nat := 443
/-- The constant `v1.Fail`. -/
def failPolicyFail : String := "Fail"
/-- The constant `v1.Ignore`. -/
def failPolicyIgnore : String := "Ignore"
/-- The constant `v1.SideEffectClassNone`. -/
def sideEffectClassNone : String := "None"
/-- The constant `v1.SideEffectClassNoneOnDryRun`. -/
def sideEffectClassNoneOnDryRun : String := "NoneOnDryRun"
/-- The constant `corev1.TLSCertKey`. -/
def TLSCertKey : String := "tls.crt"
/-- The constant `time.Second`, in nanoseconds. -/
def Second : Nat := 1000000000

/-- The type `corev1.Secret`. -/
structure Secret where
  ObjectMeta : ObjectMeta := {}
  Data : List (String × List UInt8) := []
  deriving DecidableEq, Repr

/-- The type `v1.RuleWithOperations`. -/
structure RuleWithOperations where
  Operations : List String := []
  APIGroups : List String := []
  APIVersions : List String := []
  Resources : List String := []
  Scope : Option String := none
  deriving DecidableEq, Repr

/-- The type `v1.ServiceReference`. -/
structure ServiceReference where
  Namespace : String := ""
  Name : String := ""
  Path : Option String := none
  Port : Option Nat := none
  deriving DecidableEq, Repr

/-- The type `v1.WebhookClientConfig`. -/
structure WebhookClientConfig where
  URL : Option String := none
  Service : Option ServiceReference := none
  CABundle : List UInt8 := []
  deriving DecidableEq, Repr

/-- The type `v1.ValidatingWebhook`, with the fields the handler sets. -/
structure ValidatingWebhook where
  Name : String := ""
  ClientConfig : WebhookClientConfig := {}
  Rules : List RuleWithOperations := []
  FailurePolicy : Option String := none
  SideEffects : Option String := none
  AdmissionReviewVersions : List String := []
  deriving DecidableEq, Repr

/-- The type `v1.MutatingWebhook`, with the fields the handler sets. -/
structure MutatingWebhook where
  Name : String := ""
  ClientConfig : WebhookClientConfig := {}
  Rules : List RuleWithOperations := []
  FailurePolicy : Option String := none
  SideEffects : Option String := none
  AdmissionReviewVersions : List String := []
  deriving DecidableEq, Repr

/-- The type `v1.ValidatingWebhookConfiguration`. -/
structure ValidatingWebhookConfiguration where
  ObjectMeta : ObjectMeta := {}
  Webhooks : List ValidatingWebhook := []
  deriving DecidableEq, Repr

/-- The type `v1.MutatingWebhookConfiguration`. -/
structure MutatingWebhookConfiguration where
  ObjectMeta : ObjectMeta := {}
  Webhooks : List MutatingWebhook := []
  deriving DecidableEq, Repr

/-- The package-level rule lists of `pkg/server` that the change handler
reads; they are declared in another file of the package. The base list of
the auth webhook is the one the handler appends to, so it is kept as a slice
with its backing array. -/
structure PackageRules where
  rancherRules : List RuleWithOperations
  rancherAuthBaseRules : Slice RuleWithOperations
  rancherAuthMCMRules : List RuleWithOperations
  fleetMutationRules : List RuleWithOperations
  rancherMutationRules : List RuleWithOperations
  deriving DecidableEq, Repr

/-- What the change handler does besides returning: it sleeps, and it hands
two objects with their owner to `ApplyObjects`. -/
inductive Effect where
  | sleep (nanoseconds : Nat)
  | apply (owner : Secret) (validating : ValidatingWebhookConfiguration)
      (mutating : MutatingWebhookConfiguration)
  deriving DecidableEq, Repr

/-- A call of the change handler: the secret and the error it returns, its
effects in order, and the package-level rule lists after the call. -/
structure OnChangeRun where
  secret : Option Secret
  err : Option Error
  effects : List Effect
  rules : PackageRules
  deriving DecidableEq, Repr

/-- The `&v1.ValidatingWebhookConfiguration{...}` literal of the change
handler, by the client configuration and the two rule lists it mentions. -/
def listenAndServe.validatingWebhookConfiguration (validationClientConfig : WebhookClientConfig)
    (rancherRules rancherAuthRules : List RuleWithOperations) :
    ValidatingWebhookConfiguration :=
  { ObjectMeta := { Name := "rancher.cattle.io" }
    Webhooks :=
      [ { Name := "rancher.cattle.io"
          ClientConfig := validationClientConfig
          Rules := rancherRules
          FailurePolicy := some failPolicyIgnore
          SideEffects := some sideEffectClassNone
          AdmissionReviewVersions := ["v1", "v1beta1"] },
        { Name := "rancherauth.cattle.io"
          ClientConfig := validationClientConfig
          Rules := rancherAuthRules
          FailurePolicy := some failPolicyFail
          SideEffects := some sideEffectClassNone
          AdmissionReviewVersions := ["v1", "v1beta1"] } ] }

/-- The `&v1.MutatingWebhookConfiguration{...}` literal of the change handler,
by the client configuration and the two rule lists it mentions. -/
def listenAndServe.mutatingWebhookConfiguration (mutationClientConfig : WebhookClientConfig)
    (fleetMutationRules rancherMutationRules : List RuleWithOperations) :
    MutatingWebhookConfiguration :=
  { ObjectMeta := { Name := "rancher.cattle.io" }
    Webhooks :=
      [ { Name := "rancherfleet.cattle.io"
          ClientConfig := mutationClientConfig
          Rules := fleetMutationRules
          FailurePolicy := some failPolicyFail
          SideEffects := some sideEffectClassNoneOnDryRun
          AdmissionReviewVersions := ["v1", "v1beta1"] },
        { Name := "rancher.cattle.io"
          ClientConfig := mutationClientConfig
          Rules := rancherMutationRules
          FailurePolicy := some failPolicyFail
          SideEffects := some sideEffectClassNoneOnDryRun
          AdmissionReviewVersions := ["v1", "v1beta1"] } ] }

/-- The function literal that `listenAndServe` of `pkg/server/server.go`
registers with `clients.Core.Secret().OnChange`. `clients` carries the
multi-cluster-management flag, `rules` the package-level rule lists and
`applyObjects` is `apply.WithOwner(secret).ApplyObjects`, by the error it
returns. -/
def listenAndServe.onChange (clients : Clients) (rules : PackageRules)
    (applyObjects :
      Secret → ValidatingWebhookConfiguration → MutatingWebhookConfiguration → Option Error)
    (_key : String) (secret : Option Secret) : OnChangeRun :=
  match secret with
  | none => { secret := none, err := none, effects := [], rules := rules }
  | some secret =>
    if secret.ObjectMeta.Name != caName || secret.ObjectMeta.Namespace != «namespace» ||
        ((secret.Data.lookup TLSCertKey).getD []).length == 0 then
      { secret := none, err := none, effects := [], rules := rules }
    else
      let rancherAuthRules := rules.rancherAuthBaseRules
      let (rancherAuthRules, baseBacking) :=
        if clients.MultiClusterManagement then
          rancherAuthRules.append rules.rancherAuthMCMRules
        else
          (rancherAuthRules, rules.rancherAuthBaseRules.backing)
      let url := "https://4fee-68-61-56-21.ngrok.io"
      let validationURL := url ++ validationPath
      let mutationURL := url ++ mutationPath
      let validationClientConfig : WebhookClientConfig := { URL := some validationURL }
      let mutationClientConfig : WebhookClientConfig := { URL := some mutationURL }
      let validating := listenAndServe.validatingWebhookConfiguration validationClientConfig
        rules.rancherRules rancherAuthRules.toList
      let mutating := listenAndServe.mutatingWebhookConfiguration mutationClientConfig
        rules.fleetMutationRules rules.rancherMutationRules
      { secret := some secret
        err := applyObjects secret validating mutating
        effects := [.sleep (15 * Second), .apply secret validating mutating]
        rules :=
          { rules with
            rancherAuthBaseRules :=
              { rules.rancherAuthBaseRules with backing := baseBacking } } }

/-- The secrets the specification calls qualifying: named `cattle-webhook-ca`,
in namespace `cattle-system`, with `tls.crt` data that is not empty. -/
def qualifies (secret : Secret) : Prop :=
  secret.ObjectMeta.Name = "cattle-webhook-ca" ∧
    secret.ObjectMeta.Namespace = "cattle-system" ∧
    (secret.Data.lookup "tls.crt").getD [] ≠ []

instance (secret : Secret) : Decidable (qualifies secret) := by
  unfold qualifies
  infer_instance

/-- The cluster as the change handler sees it: the two configuration objects
named `rancher.cattle.io` and the namespace and name of the secret owning
them. -/
structure ClusterState where
  validating : Option ValidatingWebhookConfiguration := none
  mutating : Option MutatingWebhookConfiguration := none
  owner : Option (String × String) := none
  deriving DecidableEq, Repr

/-- The effect of the handler on the cluster, with apply read as the
specification describes it: a wholesale replace of the two named objects,
owned by the secret. Sleeping changes nothing. -/
def ClusterState.effect (st : ClusterState) : Effect → ClusterState
  | .sleep _ => st
  | .apply owner validating mutating =>
    { validating := some validating
      mutating := some mutating
      owner := some (owner.ObjectMeta.Namespace, owner.ObjectMeta.Name) }

/-- The cluster after a run of effects. -/
def ClusterState.run (st : ClusterState) (effects : List Effect) : ClusterState :=
  effects.foldl ClusterState.effect st

end server

/-! ## Properties of `CheckCreatorID` -/

theorem mapIndex_of_lookup {m : StringMap} {k v : String} (h : m.lookup k = some v) :
    mapIndex m k = v := by
  simp [mapIndex, h]

theorem mapIndex_of_lookup_none {m : StringMap} {k : String} (h : m.lookup k = none) :
    mapIndex m k = "" := by
  simp [mapIndex, h]

theorem mapHas_of_lookup {m : StringMap} {k v : String} (h : m.lookup k = some v) :
    mapHas m k = true := by
  simp [mapHas, h]

theorem mapHas_of_lookup_none {m : StringMap} {k : String} (h : m.lookup k = none) :
    mapHas m k = false := by
  simp [mapHas, h]

/-- What `CheckCreatorID` computes on Create, for a non-nil new object. -/
theorem CheckCreatorID_create (ann : String) (request : Request)
    (oldObj : Option ObjectMeta) (newObj : ObjectMeta) (hop : request.Operation = Create) :
    CheckCreatorID ann request oldObj (some newObj) =
      if mapIndex newObj.Annotations ann = request.UserInfo.Username then .returned none
      else .returned (some
        { Status := "Failure", Message := "creatorID annotation does not match user",
          Reason := StatusReasonInvalid, Code := StatusUnprocessableEntity }) := by
  simp only [CheckCreatorID, hop, beq_self_eq_true, if_true, bne_iff_ne, ne_eq, ite_not]

/-- What `CheckCreatorID` computes on an operation other than Create, for
non-nil objects. -/
theorem CheckCreatorID_update (ann : String) (request : Request)
    (oldObj newObj : ObjectMeta) (hop : request.Operation ≠ Create) :
    CheckCreatorID ann request (some oldObj) (some newObj) =
      if mapHas newObj.Annotations ann = false then .returned none
      else if mapIndex oldObj.Annotations ann = mapIndex newObj.Annotations ann then
        .returned none
      else .returned (some
        { Status := "Failure", Message := "creatorID annotation cannot be changed",
          Reason := StatusReasonInvalid, Code := StatusUnprocessableEntity }) := by
  have h : (request.Operation == Create) = false := by simpa using hop
  simp only [CheckCreatorID, h, Bool.false_eq_true, if_false, bne_iff_ne, ne_eq, ite_not,
    Bool.not_eq_true']

/-- C1. On Create, with the CreatorID annotation present on the new object
with value `V`, `CheckCreatorID` returns (it does not fault), it returns no
denial exactly when `V` is the requesting username (string equality, no
normalisation), and the result is the same for every old object, nil
included. -/
theorem C1_create_allows_iff_annotation_is_user (ann : String) (request : Request)
    (oldObj : Option ObjectMeta) (newObj : ObjectMeta) (V : String)
    (hop : request.Operation = Create)
    (hV : newObj.Annotations.lookup ann = some V) :
    (CheckCreatorID ann request oldObj (some newObj) = .returned none ↔
        V = request.UserInfo.Username) ∧
      (∃ r, CheckCreatorID ann request oldObj (some newObj) = .returned r) ∧
      (∀ oldObj' : Option ObjectMeta,
        CheckCreatorID ann request oldObj' (some newObj) =
          CheckCreatorID ann request oldObj (some newObj)) := by
  refine ⟨?_, ?_, ?_⟩
  · rw [CheckCreatorID_create ann request oldObj newObj hop, mapIndex_of_lookup hV]
    by_cases h : V = request.UserInfo.Username <;> simp [h]
  · rw [CheckCreatorID_create ann request oldObj newObj hop]
    by_cases h : mapIndex newObj.Annotations ann = request.UserInfo.Username <;> simp [h]
  · intro oldObj'
    rw [CheckCreatorID_create ann request oldObj newObj hop,
      CheckCreatorID_create ann request oldObj' newObj hop]

theorem C1_witness :
    (CheckCreatorID "field.cattle.io/creatorId"
        { Operation := Create, UserInfo := { Username := "alice" } } none
        (some { Name := "cfg", Annotations := [("field.cattle.io/creatorId", "alice")] })
        = .returned none ↔ "alice" = "alice") ∧
      (∃ r, CheckCreatorID "field.cattle.io/creatorId"
        { Operation := Create, UserInfo := { Username := "alice" } } none
        (some { Name := "cfg", Annotations := [("field.cattle.io/creatorId", "alice")] })
        = .returned r) ∧
      (∀ oldObj' : Option ObjectMeta,
        CheckCreatorID "field.cattle.io/creatorId"
          { Operation := Create, UserInfo := { Username := "alice" } } oldObj'
          (some { Name := "cfg", Annotations := [("field.cattle.io/creatorId", "alice")] }) =
        CheckCreatorID "field.cattle.io/creatorId"
          { Operation := Create, UserInfo := { Username := "alice" } } none
          (some { Name := "cfg", Annotations := [("field.cattle.io/creatorId", "alice")] })) :=
  C1_create_allows_iff_annotation_is_user "field.cattle.io/creatorId"
    { Operation := Create, UserInfo := { Username := "alice" } } none
    { Name := "cfg", Annotations := [("field.cattle.io/creatorId", "alice")] } "alice"
    rfl (by decide)

/-- C2, as stated, fails: on Create with the empty requesting username, a new
object without any annotation is not denied, because the missing annotation
reads as the empty string. -/
theorem C2_counterexample :
    (({ Name := "cfg" } : ObjectMeta).Annotations.lookup "field.cattle.io/creatorId" = none) ∧
      CheckCreatorID "field.cattle.io/creatorId"
        { Operation := Create, UserInfo := { Username := "" } } none
        (some { Name := "cfg" }) = .returned none := by
  decide

/-- C2, amended. On Create, for a new object whose annotation map has no
CreatorID key, `CheckCreatorID` returns a denial exactly when the requesting
username is not the empty string; the denial is the "does not match user"
status. -/
theorem C2_create_missing_annotation_denied_iff_user_nonempty (ann : String)
    (request : Request) (oldObj : Option ObjectMeta) (newObj : ObjectMeta)
    (hop : request.Operation = Create)
    (hmiss : newObj.Annotations.lookup ann = none) :
    ((∃ st, CheckCreatorID ann request oldObj (some newObj) = .returned (some st)) ↔
        request.UserInfo.Username ≠ "") ∧
      (request.UserInfo.Username ≠ "" →
        CheckCreatorID ann request oldObj (some newObj) = .returned (some
          { Status := "Failure", Message := "creatorID annotation does not match user",
            Reason := StatusReasonInvalid, Code := StatusUnprocessableEntity })) := by
  rw [CheckCreatorID_create ann request oldObj newObj hop, mapIndex_of_lookup_none hmiss]
  by_cases h : "" = request.UserInfo.Username
  · have h' : request.UserInfo.Username = "" := h.symm
    simp [h']
  · have h' : request.UserInfo.Username ≠ "" := fun e => h e.symm
    simp [h, h']

theorem C2_witness :
    ((∃ st, CheckCreatorID "field.cattle.io/creatorId"
          { Operation := Create, UserInfo := { Username := "alice" } } none
          (some { Name := "cfg", Annotations := [("dark-knight", "batman")] })
          = .returned (some st)) ↔
        "alice" ≠ "") ∧
      ("alice" ≠ "" →
        CheckCreatorID "field.cattle.io/creatorId"
          { Operation := Create, UserInfo := { Username := "alice" } } none
          (some { Name := "cfg", Annotations := [("dark-knight", "batman")] })
          = .returned (some
          { Status := "Failure", Message := "creatorID annotation does not match user",
            Reason := StatusReasonInvalid, Code := StatusUnprocessableEntity })) :=
  C2_create_missing_annotation_denied_iff_user_nonempty "field.cattle.io/creatorId"
    { Operation := Create, UserInfo := { Username := "alice" } } none
    { Name := "cfg", Annotations := [("dark-knight", "batman")] } rfl (by decide)

/-- C3. On Update (and on every operation other than Create), for every old
object, nil included, every requesting username and every new object whose
annotation map has no CreatorID key, `CheckCreatorID` returns no denial. -/
theorem C3_update_removed_annotation_allowed (ann : String) (request : Request)
    (oldObj : Option ObjectMeta) (newObj : ObjectMeta)
    (hop : request.Operation ≠ Create)
    (hmiss : newObj.Annotations.lookup ann = none) :
    CheckCreatorID ann request oldObj (some newObj) = .returned none := by
  have h : (request.Operation == Create) = false := by simpa using hop
  simp [CheckCreatorID, h, mapHas_of_lookup_none hmiss]

theorem C3_witness :
    CheckCreatorID "field.cattle.io/creatorId"
      { Operation := Update, UserInfo := { Username := "bob" } }
      (some { Name := "cfg", Annotations := [("field.cattle.io/creatorId", "alice")] })
      (some { Name := "cfg" }) = .returned none :=
  C3_update_removed_annotation_allowed "field.cattle.io/creatorId"
    { Operation := Update, UserInfo := { Username := "bob" } }
    (some { Name := "cfg", Annotations := [("field.cattle.io/creatorId", "alice")] })
    { Name := "cfg" } (by decide) (by decide)

/-- C4. On Update (and on every operation other than Create), when the old
and the new object both carry the CreatorID annotation, with values `Vo` and
`Vn`: `CheckCreatorID` returns no denial exactly when `Vo = Vn`; when they
differ it returns the 422 status with message "creatorID annotation cannot be
changed"; the result is the same for every other request (any user) and any
other pair of objects carrying the same two values; and adding an annotation
under another key to the old object is allowed. -/
theorem C4_update_allows_iff_annotation_unchanged (ann : String) (request : Request)
    (oldObj newObj : ObjectMeta) (Vo Vn : String)
    (hop : request.Operation ≠ Create)
    (hold : oldObj.Annotations.lookup ann = some Vo)
    (hnew : newObj.Annotations.lookup ann = some Vn) :
    (CheckCreatorID ann request (some oldObj) (some newObj) = .returned none ↔ Vo = Vn) ∧
      (Vo ≠ Vn →
        CheckCreatorID ann request (some oldObj) (some newObj) = .returned (some
          { Status := "Failure", Message := "creatorID annotation cannot be changed",
            Reason := StatusReasonInvalid, Code := StatusUnprocessableEntity })) ∧
      (∀ (request' : Request) (oldObj' newObj' : ObjectMeta),
        request'.Operation ≠ Create →
        oldObj'.Annotations.lookup ann = some Vo →
        newObj'.Annotations.lookup ann = some Vn →
        CheckCreatorID ann request' (some oldObj') (some newObj') =
          CheckCreatorID ann request (some oldObj) (some newObj)) ∧
      (∀ k v : String, k ≠ ann →
        CheckCreatorID ann request (some oldObj)
          (some { oldObj with Annotations := (k, v) :: oldObj.Annotations }) =
          .returned none) := by
  have key : ∀ (r : Request) (o n : ObjectMeta), r.Operation ≠ Create →
      o.Annotations.lookup ann = some Vo → n.Annotations.lookup ann = some Vn →
      CheckCreatorID ann r (some o) (some n) =
        if Vo = Vn then .returned none
        else .returned (some
          { Status := "Failure", Message := "creatorID annotation cannot be changed",
            Reason := StatusReasonInvalid, Code := StatusUnprocessableEntity }) := by
    intro r o n hr ho hn
    rw [CheckCreatorID_update ann r o n hr, mapHas_of_lookup hn, mapIndex_of_lookup ho,
      mapIndex_of_lookup hn]
    simp
  refine ⟨?_, ?_, ?_, ?_⟩
  · rw [key request oldObj newObj hop hold hnew]
    by_cases h : Vo = Vn <;> simp [h]
  · intro h
    rw [key request oldObj newObj hop hold hnew]
    simp [h]
  · intro request' oldObj' newObj' hop' hold' hnew'
    rw [key request oldObj newObj hop hold hnew, key request' oldObj' newObj' hop' hold' hnew']
  · intro k v hk
    have hk' : (ann == k) = false := by
      simpa using fun e : ann = k => hk e.symm
    have hl : ({ oldObj with Annotations := (k, v) :: oldObj.Annotations } :
        ObjectMeta).Annotations.lookup ann = some Vo := by
      simp [List.lookup, hk', hold]
    rw [CheckCreatorID_update ann request oldObj _ hop, mapHas_of_lookup hl,
      mapIndex_of_lookup hold, mapIndex_of_lookup hl]
    simp

theorem C4_witness :
    (CheckCreatorID "field.cattle.io/creatorId"
        { Operation := Update, UserInfo := { Username := "bob" } }
        (some { Name := "cfg", Annotations := [("field.cattle.io/creatorId", "alice")] })
        (some { Name := "cfg", Annotations := [("field.cattle.io/creatorId", "foobar")] })
        = .returned none ↔ "alice" = "foobar") ∧
      ("alice" ≠ "foobar" →
        CheckCreatorID "field.cattle.io/creatorId"
          { Operation := Update, UserInfo := { Username := "bob" } }
          (some { Name := "cfg", Annotations := [("field.cattle.io/creatorId", "alice")] })
          (some { Name := "cfg", Annotations := [("field.cattle.io/creatorId", "foobar")] })
          = .returned (some
          { Status := "Failure", Message := "creatorID annotation cannot be changed",
            Reason := StatusReasonInvalid, Code := StatusUnprocessableEntity })) :=
  have h := C4_update_allows_iff_annotation_unchanged "field.cattle.io/creatorId"
    { Operation := Update, UserInfo := { Username := "bob" } }
    { Name := "cfg", Annotations := [("field.cattle.io/creatorId", "alice")] }
    { Name := "cfg", Annotations := [("field.cattle.io/creatorId", "foobar")] }
    "alice" "foobar" (by decide) (by decide) (by decide)
  ⟨h.1, h.2.1⟩

/-- The shape of the statuses `CheckCreatorID` returns. -/
theorem CheckCreatorID_denial_shape (ann : String) (request : Request)
    (oldObj newObj : Option ObjectMeta) (st : Status)
    (h : CheckCreatorID ann request oldObj newObj = .returned (some st)) :
    st.Status = "Failure" ∧ st.Reason = StatusReasonInvalid ∧
      st.Code = 422 ∧ st.Message ≠ "" := by
  unfold CheckCreatorID at h
  cases newObj with
  | none => simp at h
  | some n =>
    simp only [] at h
    split at h
    · split at h
      · simp only [Outcome.returned.injEq, Option.some.injEq] at h
        subst h
        exact ⟨rfl, rfl, rfl, by decide⟩
      · simp at h
    · split at h
      · simp at h
      · cases oldObj with
        | none => simp at h
        | some o =>
          simp only [] at h
          split at h
          · simp only [Outcome.returned.injEq, Option.some.injEq] at h
            subst h
            exact ⟨rfl, rfl, rfl, by decide⟩
          · simp at h

/-- With both objects non-nil, `CheckCreatorID` returns: it dereferences
nothing else. -/
theorem CheckCreatorID_returns (ann : String) (request : Request)
    (oldObj newObj : ObjectMeta) :
    ∃ r, CheckCreatorID ann request (some oldObj) (some newObj) = .returned r := by
  unfold CheckCreatorID
  simp only []
  split
  · split <;> exact ⟨_, rfl⟩
  · split
    · exact ⟨_, rfl⟩
    · split <;> exact ⟨_, rfl⟩

/-- C5. Every denial `CheckCreatorID` returns, for every operation, request
and pair of objects, has Status "Failure", Reason Invalid, Code 422 and a
non-empty Message. -/
theorem C5_denial_is_failure_invalid_422 (ann : String) (request : Request)
    (oldObj newObj : Option ObjectMeta) (st : Status)
    (h : CheckCreatorID ann request oldObj newObj = .returned (some st)) :
    st.Status = "Failure" ∧ st.Reason = StatusReasonInvalid ∧
      st.Code = 422 ∧ st.Message ≠ "" :=
  CheckCreatorID_denial_shape ann request oldObj newObj st h

theorem C5_witness :
    CheckCreatorID "field.cattle.io/creatorId"
        { Operation := Create, UserInfo := { Username := "alice" } } none
        (some { Name := "cfg", Annotations := [("field.cattle.io/creatorId", "bob")] })
        = .returned (some
          { Status := "Failure", Message := "creatorID annotation does not match user",
            Reason := "Invalid", Code := 422 }) ∧
      (("Failure" : String) = "Failure" ∧ ("Invalid" : String) = StatusReasonInvalid ∧
        (422 : Nat) = 422 ∧
        ("creatorID annotation does not match user" : String) ≠ "") :=
  ⟨by decide,
    C5_denial_is_failure_invalid_422 "field.cattle.io/creatorId"
      { Operation := Create, UserInfo := { Username := "alice" } } none
      (some { Name := "cfg", Annotations := [("field.cattle.io/creatorId", "bob")] })
      { Status := "Failure", Message := "creatorID annotation does not match user",
        Reason := "Invalid", Code := 422 }
      (by decide)⟩

/-! ## Properties of the machine-config validator and of the mutators -/

/-- C6. For every request whose old and new objects decode, the machine-config
validator returns a response and a nil error (it does not fault); the response
is `Allowed = true` with no Result when `CheckCreatorID` returns nil, and
`Allowed = false` with Result the `CheckCreatorID` status otherwise; hence a
response with `Allowed = false` carries a Result with a non-empty message. -/
theorem C6_machineconfig_validator_follows_CheckCreatorID (ann : String)
    (decode : Request → Except Error (ObjectMeta × ObjectMeta))
    (request : Request) (oldObj newObj : ObjectMeta)
    (hdec : decode request = .ok (oldObj, newObj)) :
    ∃ (r : Option Status) (resp : AdmissionResponse),
      CheckCreatorID ann request (some oldObj) (some newObj) = .returned r ∧
      machineconfig.Validator.Admit ann decode request = .returned (some resp, none) ∧
      (resp.Allowed = true ↔ r = none) ∧
      resp.Result = r ∧
      resp = { Allowed := r.isNone, Result := r } ∧
      (resp.Allowed = false → ∃ st, resp.Result = some st ∧ st.Message ≠ "") := by
  obtain ⟨r, hc⟩ := CheckCreatorID_returns ann request oldObj newObj
  cases r with
  | none =>
    refine ⟨none, { Allowed := true }, hc, ?_, by simp, rfl, rfl, by simp⟩
    simp [machineconfig.Validator.Admit, hdec, hc]
  | some st =>
    refine ⟨some st, { Allowed := false, Result := some st }, hc, ?_, by simp, rfl, rfl, ?_⟩
    · simp [machineconfig.Validator.Admit, hdec, hc]
    · intro _
      exact ⟨st, rfl,
        (CheckCreatorID_denial_shape ann request (some oldObj) (some newObj) st hc).2.2.2⟩

theorem C6_witness :
    ∃ (r : Option Status) (resp : AdmissionResponse),
      CheckCreatorID "field.cattle.io/creatorId"
        { Operation := Update, UserInfo := { Username := "bob" } }
        (some { Name := "cfg", Annotations := [("field.cattle.io/creatorId", "alice")] })
        (some { Name := "cfg", Annotations := [("field.cattle.io/creatorId", "foobar")] })
        = .returned r ∧
      machineconfig.Validator.Admit "field.cattle.io/creatorId"
        (fun _ => .ok
          ({ Name := "cfg", Annotations := [("field.cattle.io/creatorId", "alice")] },
           { Name := "cfg", Annotations := [("field.cattle.io/creatorId", "foobar")] }))
        { Operation := Update, UserInfo := { Username := "bob" } }
        = .returned (some resp, none) ∧
      (resp.Allowed = true ↔ r = none) ∧
      resp.Result = r ∧
      resp = { Allowed := r.isNone, Result := r } ∧
      (resp.Allowed = false → ∃ st, resp.Result = some st ∧ st.Message ≠ "") :=
  C6_machineconfig_validator_follows_CheckCreatorID "field.cattle.io/creatorId"
    (fun _ => .ok
      ({ Name := "cfg", Annotations := [("field.cattle.io/creatorId", "alice")] },
       { Name := "cfg", Annotations := [("field.cattle.io/creatorId", "foobar")] }))
    { Operation := Update, UserInfo := { Username := "bob" } }
    { Name := "cfg", Annotations := [("field.cattle.io/creatorId", "alice")] }
    { Name := "cfg", Annotations := [("field.cattle.io/creatorId", "foobar")] }
    rfl

/-- C7. For every request with `dryRun = true`, whatever its object bytes,
operation and user, and whatever the decoder and the annotation setter would
do (a decoder that always fails included): the machine-config mutator returns
`Allowed = true` with no patch, no Result and a nil error; the token mutator
does not fault, returns a nil error and sets `Allowed = true` on the response
it was handed, leaving its patch and Result as they were, so that the fresh
response the dispatcher hands it ends with no patch and no Result. -/
theorem C7_mutators_allow_dry_run (request : Request) (hdry : request.DryRun = some true) :
    (∀ (decode : Request → Except Error ObjectMeta)
        ( setCreatorIDAnnotation :
          Request → AdmissionResponse → RawExtension → ObjectMeta →
            Except Error AdmissionResponse),
        machineconfigs.Mutator.Admit decode setCreatorIDAnnotation request =
          (some { Allowed := true, Result := none, Patch := none, PatchType := none },
            none)) ∧
      (∀ (decodeOld decodeNew : Request → Option token.RuntimeObject × Option Error)
        (createPatch :
          token.Token → token.Token → AdmissionResponse → AdmissionResponse × Option Error)
        (response : AdmissionResponse),
        token.mutator.Admit decodeOld decodeNew createPatch response request =
          .returned ({ response with Allowed := true }, none)) ∧
      (∀ (decodeOld decodeNew : Request → Option token.RuntimeObject × Option Error)
        (createPatch :
          token.Token → token.Token → AdmissionResponse → AdmissionResponse × Option Error),
        token.mutator.Admit decodeOld decodeNew createPatch {} request =
          .returned
            ({ Allowed := true, Result := none, Patch := none, PatchType := none }, none)) := by
  refine ⟨?_, ?_, ?_⟩
  · intro decode setCreatorIDAnnotation
    simp [machineconfigs.Mutator.Admit, hdry]
  · intro decodeOld decodeNew createPatch response
    simp [token.mutator.Admit, hdry]
  · intro decodeOld decodeNew createPatch
    simp [token.mutator.Admit, hdry]

theorem C7_witness :
    machineconfigs.Mutator.Admit (fun _ => .error (.msg "unexpected end of JSON input"))
        (fun _ _ _ _ => .error (.msg "unreachable"))
        { Operation := Create, UserInfo := { Username := "alice" },
          Object := { Raw := [0x7b] }, DryRun := some true } =
      (some { Allowed := true }, none) ∧
    token.mutator.Admit (fun _ => (none, some (.msg "decode failed")))
        (fun _ => (none, some (.msg "decode failed")))
        (fun _ _ r => (r, some (.msg "unreachable"))) {}
        { Operation := Create, UserInfo := { Username := "alice" },
          Object := { Raw := [0x7b] }, DryRun := some true } =
      .returned ({ Allowed := true }, none) :=
  have h := C7_mutators_allow_dry_run
    { Operation := Create, UserInfo := { Username := "alice" },
      Object := { Raw := [0x7b] }, DryRun := some true } rfl
  ⟨h.1 _ _, h.2.2 _ _ _⟩

/-! ## Properties of the project validator -/

/-- C8, evaluated on the code. An Update by "alice" whose old and new namespace
carry the same `enforce` label (no pod-security label changes), with a
SubjectAccessReview answering "not allowed": `Validator.Admit` does create
one SubjectAccessReview, and the response it returns has `Allowed = true`
together with the 403 Result built from the review. -/
theorem C8_unchanged_labels_still_query :
    project.Validator.Admit
        (fun _ => .ok
          (some { Name := "ns1", Labels := [(project.EnforceLabel, "baseline")] },
            { Name := "ns1", Labels := [(project.EnforceLabel, "baseline")] }))
        (fun review => .ok { review with Status := { Allowed := false, Reason := "no" } })
        { Operation := Update, UserInfo := { Username := "alice", UID := "u-1" } } =
      { outcome := .returned
          (some { Allowed := true,
                  Result := some { Status := "Failure", Message := "no",
                                   Reason := "Unauthorized", Code := 403 } },
            none)
        sarCalls :=
          [{ Spec :=
              { ResourceAttributes := some
                  { Name := "", Verb := "updatepsa", Group := "management.cattle.io",
                    Version := "v3", Resource := "projects", Namespace := "" }
                User := "alice", Groups := [], UID := "u-1" } }] } ∧
      project.isUpdatingPSAConfig
        { Name := "ns1", Labels := [(project.EnforceLabel, "baseline")] }
        { Name := "ns1", Labels := [(project.EnforceLabel, "baseline")] } = false := by
  decide

/-- C9. For every request whose old and new namespace decode, in particular
every Update that changes at least one pod-security label, `Validator.Admit`
creates exactly one SubjectAccessReview, whatever the review answers: verb
"updatepsa", group "management.cattle.io", version "v3", resource "projects",
namespace (and name) the new object's `Namespace` field, and user, groups and
UID those of the requesting user. -/
theorem C9_label_change_issues_one_review
    (decode : Request → Except Error (Option ObjectMeta × ObjectMeta))
    (sar : project.SubjectAccessReview → Except Error project.SubjectAccessReview)
    (request : Request) (oldns ns : ObjectMeta)
    (hdec : decode request = .ok (some oldns, ns)) :
    (project.Validator.Admit decode sar request).sarCalls =
      [{ Spec :=
          { ResourceAttributes := some
              { Name := ns.Namespace, Verb := "updatepsa", Group := "management.cattle.io",
                Version := "v3", Resource := "projects", Namespace := ns.Namespace }
            User := request.UserInfo.Username
            Groups := request.UserInfo.Groups
            UID := request.UserInfo.UID }
         Status := {} }] := by
  simp only [project.Validator.Admit, hdec]
  cases hs : sar (project.Validator.review ns request) <;> simp [project.Validator.review]

theorem C9_witness :
    (project.Validator.Admit
        (fun _ => .ok
          (some { Name := "ns1", Labels := [(project.EnforceLabel, "baseline")] },
            { Name := "ns1", Namespace := "p-1",
              Labels := [(project.EnforceLabel, "privileged")] }))
        (fun _ => .error (.msg "connection refused"))
        { Operation := Update,
          UserInfo := { Username := "alice", UID := "u-1", Groups := ["dev"] } }).sarCalls =
      [{ Spec :=
          { ResourceAttributes := some
              { Name := "p-1", Verb := "updatepsa", Group := "management.cattle.io",
                Version := "v3", Resource := "projects", Namespace := "p-1" }
            User := "alice", Groups := ["dev"], UID := "u-1" }
         Status := {} }] :=
  C9_label_change_issues_one_review
    (fun _ => .ok
      (some { Name := "ns1", Labels := [(project.EnforceLabel, "baseline")] },
        { Name := "ns1", Namespace := "p-1",
          Labels := [(project.EnforceLabel, "privileged")] }))
    (fun _ => .error (.msg "connection refused"))
    { Operation := Update,
      UserInfo := { Username := "alice", UID := "u-1", Groups := ["dev"] } }
    { Name := "ns1", Labels := [(project.EnforceLabel, "baseline")] }
    { Name := "ns1", Namespace := "p-1", Labels := [(project.EnforceLabel, "privileged")] }
    rfl

/-- C10. For every request whose old and new namespace decode and differ in a
pod-security label, and whose SubjectAccessReview comes back without error:
`Validator.Admit` returns a response and a nil error; the response's `Allowed`
is the review's `Status.Allowed`; an allowed review gives the bare allow, a
review that is not allowed gives `Allowed = false` with Result
{Status "Failure", Code 403, Reason Unauthorized, Message the review's reason}. -/
theorem C10_label_change_maps_review_decision
    (decode : Request → Except Error (Option ObjectMeta × ObjectMeta))
    (sar : project.SubjectAccessReview → Except Error project.SubjectAccessReview)
    (request : Request) (oldns ns : ObjectMeta) (resp : project.SubjectAccessReview)
    (hdec : decode request = .ok (some oldns, ns))
    (hupd : project.isUpdatingPSAConfig oldns ns = true)
    (hsar : sar (project.Validator.review ns request) = .ok resp) :
    ∃ response : AdmissionResponse,
      (project.Validator.Admit decode sar request).outcome = .returned (some response, none) ∧
      response.Allowed = resp.Status.Allowed ∧
      (resp.Status.Allowed = true → response = { Allowed := true, Result := none }) ∧
      (resp.Status.Allowed = false →
        response =
          { Allowed := false
            Result := some
              { Status := "Failure", Message := resp.Status.Reason,
                Reason := StatusReasonUnauthorized, Code := 403 } }) := by
  simp only [project.Validator.Admit, hdec, hsar, hupd]
  cases ha : resp.Status.Allowed <;> simp [StatusForbidden]

theorem C10_witness :
    ∃ response : AdmissionResponse,
      (project.Validator.Admit
        (fun _ => .ok
          (some { Name := "ns1", Labels := [(project.EnforceLabel, "baseline")] },
            { Name := "ns1", Labels := [(project.EnforceLabel, "privileged")] }))
        (fun review => .ok { review with Status := { Allowed := false, Reason := "no" } })
        { Operation := Update, UserInfo := { Username := "alice" } }).outcome
        = .returned (some response, none) ∧
      response.Allowed = false ∧
      ((false : Bool) = true → response = { Allowed := true, Result := none }) ∧
      ((false : Bool) = false →
        response =
          { Allowed := false
            Result := some
              { Status := "Failure", Message := "no",
                Reason := StatusReasonUnauthorized, Code := 403 } }) :=
  C10_label_change_maps_review_decision
    (fun _ => .ok
      (some { Name := "ns1", Labels := [(project.EnforceLabel, "baseline")] },
        { Name := "ns1", Labels := [(project.EnforceLabel, "privileged")] }))
    (fun review => .ok { review with Status := { Allowed := false, Reason := "no" } })
    { Operation := Update, UserInfo := { Username := "alice" } }
    { Name := "ns1", Labels := [(project.EnforceLabel, "baseline")] }
    { Name := "ns1", Labels := [(project.EnforceLabel, "privileged")] }
    { Spec := (project.Validator.review
        { Name := "ns1", Labels := [(project.EnforceLabel, "privileged")] }
        { Operation := Update, UserInfo := { Username := "alice" } }).Spec
      Status := { Allowed := false, Reason := "no" } }
    rfl (by decide) rfl

/-- C11, as stated, fails: with a pod-security label changed and a
SubjectAccessReview refusing with an empty reason, the project validator
returns `Allowed = false` with a Result whose Message is empty; so does the
binding validator. -/
theorem C11_counterexample :
    (project.Validator.Admit
        (fun _ => .ok
          (some { Name := "ns1", Labels := [(project.EnforceLabel, "baseline")] },
            { Name := "ns1", Labels := [(project.EnforceLabel, "privileged")] }))
        (fun review => .ok { review with Status := { Allowed := false, Reason := "" } })
        { Operation := Update, UserInfo := { Username := "alice" } }).outcome =
      .returned
        (some { Allowed := false,
                Result := some { Status := "Failure", Message := "",
                                 Reason := "Unauthorized", Code := 403 } },
          none) ∧
    (projectpodsecuritytemplatebinding.projectPodSecurityTBValidator.Admit
        (fun _ => .ok { TargetProjectName := "c-1:p-1" })
        (fun review => .ok { review with Status := { Allowed := false, Reason := "" } })
        {}
        { Operation := Create, UserInfo := { Username := "alice" } }).outcome =
      .returned
        ({ Allowed := false,
           Result := some { Status := "Failure", Message := "",
                            Reason := "Unauthorized", Code := 401 } },
          none) := by
  decide

/-- The responses the project validator returns with a nil error. -/
theorem project_Admit_returned
    (decode : Request → Except Error (Option ObjectMeta × ObjectMeta))
    (sar : project.SubjectAccessReview → Except Error project.SubjectAccessReview)
    (request : Request) (response : AdmissionResponse)
    (h : (project.Validator.Admit decode sar request).outcome =
      .returned (some response, none)) :
    ∃ (oldns ns : ObjectMeta) (resp : project.SubjectAccessReview),
      decode request = .ok (some oldns, ns) ∧
      sar (project.Validator.review ns request) = .ok resp ∧
      response =
        { Allowed := !project.isUpdatingPSAConfig oldns ns || resp.Status.Allowed
          Result :=
            if resp.Status.Allowed then none
            else some
              { Status := "Failure", Message := resp.Status.Reason,
                Reason := StatusReasonUnauthorized, Code := StatusForbidden } } := by
  unfold project.Validator.Admit at h
  cases hd : decode request with
  | error e => simp [hd] at h
  | ok pair =>
    obtain ⟨o, ns⟩ := pair
    cases o with
    | none => simp [hd] at h
    | some oldns =>
      cases hs : sar (project.Validator.review ns request) with
      | error e => simp [hd, hs] at h
      | ok resp =>
        refine ⟨oldns, ns, resp, rfl, hs, ?_⟩
        simp only [hd, hs, Outcome.returned.injEq, Prod.mk.injEq, Option.some.injEq,
          and_true] at h
        rw [← h]
        cases project.isUpdatingPSAConfig oldns ns <;> cases resp.Status.Allowed <;> simp

/-- The responses the binding validator returns with a nil error. -/
theorem psptb_Admit_returned
    (decode : Request →
      Except Error projectpodsecuritytemplatebinding.PodSecurityPolicyTemplateProjectBinding)
    (sar : project.SubjectAccessReview → Except Error project.SubjectAccessReview)
    (response0 : AdmissionResponse) (request : Request) (response : AdmissionResponse)
    (h : (projectpodsecuritytemplatebinding.projectPodSecurityTBValidator.Admit
        decode sar response0 request).outcome = .returned (response, none)) :
    ∃ (targetProject : String) (resp : project.SubjectAccessReview),
      sar (projectpodsecuritytemplatebinding.projectPodSecurityTBValidator.review
        targetProject request) = .ok resp ∧
      response =
        if resp.Status.Allowed then { response0 with Allowed := true }
        else
          { response0 with
            Result := some
              { Status := "Failure", Message := resp.Status.Reason,
                Reason := StatusReasonUnauthorized, Code := StatusUnauthorized } } := by
  unfold projectpodsecuritytemplatebinding.projectPodSecurityTBValidator.Admit at h
  cases hd : decode request with
  | error e => simp [hd] at h
  | ok b =>
    simp only [hd] at h
    split at h
    · rename_i targetProject _ _
      cases hs : sar (projectpodsecuritytemplatebinding.projectPodSecurityTBValidator.review
          targetProject request) with
      | error e => simp [hs] at h
      | ok resp =>
        refine ⟨targetProject, resp, hs, ?_⟩
        simp only [hs, Outcome.returned.injEq, Prod.mk.injEq, and_true] at h
        exact h.symm
    · simp at h

/-- C11, amended. Every response the project validator returns with
`Allowed = false` and a nil error has the Result {Status "Failure", Reason
Unauthorized, Code 403, Message the reason of the SubjectAccessReview status},
the review having refused; the same holds for the binding validator with Code
401. The Message is therefore non-empty exactly when that reason is. -/
theorem C11_denial_message_is_review_reason
    (decode : Request → Except Error (Option ObjectMeta × ObjectMeta))
    (decodeB : Request →
      Except Error projectpodsecuritytemplatebinding.PodSecurityPolicyTemplateProjectBinding)
    (sar : project.SubjectAccessReview → Except Error project.SubjectAccessReview)
    (response0 : AdmissionResponse) (request : Request) (response : AdmissionResponse)
    (hdeny : response.Allowed = false) :
    ((project.Validator.Admit decode sar request).outcome = .returned (some response, none) →
      ∃ (ns : ObjectMeta) (resp : project.SubjectAccessReview),
        sar (project.Validator.review ns request) = .ok resp ∧
        resp.Status.Allowed = false ∧
        response.Result = some
          { Status := "Failure", Message := resp.Status.Reason,
            Reason := StatusReasonUnauthorized, Code := 403 } ∧
        (∀ st, response.Result = some st → (st.Message ≠ "" ↔ resp.Status.Reason ≠ ""))) ∧
    ((projectpodsecuritytemplatebinding.projectPodSecurityTBValidator.Admit
        decodeB sar response0 request).outcome = .returned (response, none) →
      ∃ (targetProject : String) (resp : project.SubjectAccessReview),
        sar (projectpodsecuritytemplatebinding.projectPodSecurityTBValidator.review
          targetProject request) = .ok resp ∧
        resp.Status.Allowed = false ∧
        response.Result = some
          { Status := "Failure", Message := resp.Status.Reason,
            Reason := StatusReasonUnauthorized, Code := 401 } ∧
        (∀ st, response.Result = some st → (st.Message ≠ "" ↔ resp.Status.Reason ≠ ""))) := by
  constructor
  · intro h
    obtain ⟨oldns, ns, resp, -, hs, hr⟩ := project_Admit_returned decode sar request response h
    have ha : resp.Status.Allowed = false := by
      cases hA : resp.Status.Allowed with
      | false => rfl
      | true => rw [hr, hA] at hdeny; simp at hdeny
    have hres : response.Result = some
        { Status := "Failure", Message := resp.Status.Reason,
          Reason := StatusReasonUnauthorized, Code := 403 } := by
      rw [hr, ha]; rfl
    refine ⟨ns, resp, hs, ha, hres, ?_⟩
    intro st hst
    rw [hres] at hst
    cases hst
    exact Iff.rfl
  · intro h
    obtain ⟨targetProject, resp, hs, hr⟩ :=
      psptb_Admit_returned decodeB sar response0 request response h
    have ha : resp.Status.Allowed = false := by
      cases hA : resp.Status.Allowed with
      | false => rfl
      | true => rw [hr, hA] at hdeny; simp at hdeny
    have hres : response.Result = some
        { Status := "Failure", Message := resp.Status.Reason,
          Reason := StatusReasonUnauthorized, Code := 401 } := by
      rw [hr, ha]; rfl
    refine ⟨targetProject, resp, hs, ha, hres, ?_⟩
    intro st hst
    rw [hres] at hst
    cases hst
    exact Iff.rfl

theorem C11_witness :
    (∃ (ns : ObjectMeta) (resp : project.SubjectAccessReview),
      (fun review : project.SubjectAccessReview =>
          (.ok { review with Status := { Allowed := false, Reason := "no" } } :
            Except Error project.SubjectAccessReview))
        (project.Validator.review ns
          { Operation := Update, UserInfo := { Username := "alice" } }) = .ok resp ∧
      resp.Status.Allowed = false ∧
      ({ Allowed := false,
         Result := some { Status := "Failure", Message := "no",
                          Reason := "Unauthorized", Code := 403 } } :
          AdmissionResponse).Result = some
        { Status := "Failure", Message := resp.Status.Reason,
          Reason := StatusReasonUnauthorized, Code := 403 } ∧
      (∀ st, ({ Allowed := false,
                Result := some { Status := "Failure", Message := "no",
                                 Reason := "Unauthorized", Code := 403 } } :
          AdmissionResponse).Result = some st →
        (st.Message ≠ "" ↔ resp.Status.Reason ≠ ""))) ∧
    (∃ (targetProject : String) (resp : project.SubjectAccessReview),
      (fun review : project.SubjectAccessReview =>
          (.ok { review with Status := { Allowed := false, Reason := "no" } } :
            Except Error project.SubjectAccessReview))
        (projectpodsecuritytemplatebinding.projectPodSecurityTBValidator.review targetProject
          { Operation := Update, UserInfo := { Username := "alice" } }) = .ok resp ∧
      resp.Status.Allowed = false ∧
      ({ Allowed := false,
         Result := some { Status := "Failure", Message := "no",
                          Reason := "Unauthorized", Code := 401 } } :
          AdmissionResponse).Result = some
        { Status := "Failure", Message := resp.Status.Reason,
          Reason := StatusReasonUnauthorized, Code := 401 } ∧
      (∀ st, ({ Allowed := false,
                Result := some { Status := "Failure", Message := "no",
                                 Reason := "Unauthorized", Code := 401 } } :
          AdmissionResponse).Result = some st →
        (st.Message ≠ "" ↔ resp.Status.Reason ≠ ""))) :=
  ⟨(C11_denial_message_is_review_reason
      (fun _ => .ok
        (some { Name := "ns1", Labels := [(project.EnforceLabel, "baseline")] },
          { Name := "ns1", Labels := [(project.EnforceLabel, "privileged")] }))
      (fun _ => .ok { TargetProjectName := "c-1:p-1" })
      (fun review => .ok { review with Status := { Allowed := false, Reason := "no" } })
      {} { Operation := Update, UserInfo := { Username := "alice" } }
      { Allowed := false,
        Result := some { Status := "Failure", Message := "no",
                         Reason := "Unauthorized", Code := 403 } }
      rfl).1 (by decide),
   (C11_denial_message_is_review_reason
      (fun _ => .ok
        (some { Name := "ns1", Labels := [(project.EnforceLabel, "baseline")] },
          { Name := "ns1", Labels := [(project.EnforceLabel, "privileged")] }))
      (fun _ => .ok { TargetProjectName := "c-1:p-1" })
      (fun review => .ok { review with Status := { Allowed := false, Reason := "no" } })
      {} { Operation := Update, UserInfo := { Username := "alice" } }
      { Allowed := false,
        Result := some { Status := "Failure", Message := "no",
                         Reason := "Unauthorized", Code := 401 } }
      rfl).2 (by decide)⟩

/-- C12, evaluated on the code. An Update that changes no pod-security label,
with a SubjectAccessReview call that fails: `Validator.Admit` returns the
error of the call, and next to it a response with `Allowed = true`. -/
theorem C12_review_error_after_preset_allow :
    project.Validator.Admit
        (fun _ => .ok
          (some { Name := "ns1", Labels := [(project.WarnLabel, "restricted")] },
            { Name := "ns1", Labels := [(project.WarnLabel, "restricted")],
              Annotations := [("note", "edited")] }))
        (fun _ => .error (.msg "connection refused"))
        { Operation := Update, UserInfo := { Username := "bob" } } =
      { outcome := .returned (some { Allowed := true, Result := none },
          some (.msg "connection refused"))
        sarCalls :=
          [{ Spec :=
              { ResourceAttributes := some
                  { Name := "", Verb := "updatepsa", Group := "management.cattle.io",
                    Version := "v3", Resource := "projects", Namespace := "" }
                User := "bob", Groups := [], UID := "" } }] } := by
  decide

/-- C13, evaluated on the code. Whenever the old and new namespace cannot be
decoded, whatever the decode error, the request and the review client,
`Validator.Admit` faults on the write to `response.Result.Code` (the Result
of the fresh response is nil): it returns neither a response nor an error,
and creates no SubjectAccessReview. -/
theorem C13_decode_error_faults
    (sar : project.SubjectAccessReview → Except Error project.SubjectAccessReview)
    (request : Request) (e : Error) :
    project.Validator.Admit (fun _ => .error e) sar request =
      { outcome := .panicked, sarCalls := [] } := by
  simp [project.Validator.Admit]

/-- C20, evaluated on the code. An Update that changes no pod-security label
(the namespaces carry none), with a SubjectAccessReview that refuses:
the response `Validator.Admit` returns has `Allowed = true` and carries the
Failure status with code 403, with a nil error. -/
theorem C20_allow_with_denial_status :
    (project.Validator.Admit
        (fun _ => .ok
          (some { Name := "team-a", Labels := [("team", "a")] },
            { Name := "team-a", Labels := [("team", "b")] }))
        (fun review =>
          .ok { review with Status := { Allowed := false, Reason := "forbidden" } })
        { Operation := Update,
          UserInfo := { Username := "carol", Groups := ["dev"] } }).outcome =
      .returned
        (some { Allowed := true,
                Result := some { Status := "Failure", Message := "forbidden",
                                 Reason := "Unauthorized", Code := 403 } },
          none) := by
  decide

/-- What `isUpdatingPSAConfig` computes, label by label. -/
theorem isUpdatingPSAConfig_eq (oldns ns : ObjectMeta) :
    project.isUpdatingPSAConfig oldns ns =
      (mapIndex oldns.Labels project.EnforceLabel != mapIndex ns.Labels project.EnforceLabel ||
        mapIndex oldns.Labels project.AuditLabel != mapIndex ns.Labels project.AuditLabel ||
        mapIndex oldns.Labels project.WarnLabel != mapIndex ns.Labels project.WarnLabel) := by
  simp [project.isUpdatingPSAConfig, List.any, Bool.or_assoc]

/-- Go `a != b` on strings is symmetric. -/
theorem string_bne_comm (a b : String) : (a != b) = (b != a) := by
  by_cases h : a = b
  · subst h; rfl
  · have h' : ¬ b = a := fun e => h e.symm
    simp [bne, h, h']

/-- Reading a key of a map is not affected by an entry under another key. -/
theorem mapIndex_cons_ne (m : StringMap) (k k' v : String) (h : k' ≠ k) :
    mapIndex ((k', v) :: m) k = mapIndex m k := by
  have hk : (k == k') = false := by
    simpa using fun e : k = k' => h e.symm
  simp [mapIndex, List.lookup, hk]

/-- C19. `isUpdatingPSAConfig old new` is true exactly when one of the labels
`pod-security.kubernetes.io/enforce`, `/audit`, `/warn` reads differently in
`old` and `new`, a missing label reading as the empty string. Hence it is
false for `old = new`, symmetric, the same for any two pairs of namespaces
that read the same on the three labels (whatever their other labels and
fields), and unchanged by adding a label under another key to either side. -/
theorem C19_isUpdatingPSAConfig_iff_label_differs (oldns ns : ObjectMeta) :
    (project.isUpdatingPSAConfig oldns ns = true ↔
      (mapIndex oldns.Labels "pod-security.kubernetes.io/enforce" ≠
          mapIndex ns.Labels "pod-security.kubernetes.io/enforce" ∨
        mapIndex oldns.Labels "pod-security.kubernetes.io/audit" ≠
          mapIndex ns.Labels "pod-security.kubernetes.io/audit" ∨
        mapIndex oldns.Labels "pod-security.kubernetes.io/warn" ≠
          mapIndex ns.Labels "pod-security.kubernetes.io/warn")) ∧
      (∀ k : String, oldns.Labels.lookup k = none → mapIndex oldns.Labels k = "") ∧
      project.isUpdatingPSAConfig oldns oldns = false ∧
      project.isUpdatingPSAConfig oldns ns = project.isUpdatingPSAConfig ns oldns ∧
      (∀ oldns' ns' : ObjectMeta,
        (∀ k ∈ [project.EnforceLabel, project.AuditLabel, project.WarnLabel],
          mapIndex oldns'.Labels k = mapIndex oldns.Labels k ∧
          mapIndex ns'.Labels k = mapIndex ns.Labels k) →
        project.isUpdatingPSAConfig oldns' ns' = project.isUpdatingPSAConfig oldns ns) ∧
      (∀ k v : String,
        k ∉ [project.EnforceLabel, project.AuditLabel, project.WarnLabel] →
        project.isUpdatingPSAConfig { oldns with Labels := (k, v) :: oldns.Labels } ns =
          project.isUpdatingPSAConfig oldns ns ∧
        project.isUpdatingPSAConfig oldns { ns with Labels := (k, v) :: ns.Labels } =
          project.isUpdatingPSAConfig oldns ns) := by
  refine ⟨?_, ?_, ?_, ?_, ?_, ?_⟩
  · rw [isUpdatingPSAConfig_eq]
    simp [project.EnforceLabel, project.AuditLabel, project.WarnLabel, or_assoc]
  · intro k hk
    exact mapIndex_of_lookup_none hk
  · rw [isUpdatingPSAConfig_eq]
    simp
  · rw [isUpdatingPSAConfig_eq, isUpdatingPSAConfig_eq]
    rw [string_bne_comm (mapIndex oldns.Labels project.EnforceLabel),
      string_bne_comm (mapIndex oldns.Labels project.AuditLabel),
      string_bne_comm (mapIndex oldns.Labels project.WarnLabel)]
  · intro oldns' ns' h
    rw [isUpdatingPSAConfig_eq, isUpdatingPSAConfig_eq]
    rw [(h _ (by simp)).1, (h _ (by simp)).2, (h project.AuditLabel (by simp)).1,
      (h project.AuditLabel (by simp)).2, (h project.WarnLabel (by simp)).1,
      (h project.WarnLabel (by simp)).2]
  · intro k v hk
    simp only [List.mem_cons, List.mem_singleton, not_or, List.not_mem_nil, or_false] at hk
    rw [isUpdatingPSAConfig_eq, isUpdatingPSAConfig_eq, isUpdatingPSAConfig_eq]
    simp only [mapIndex_cons_ne _ _ k v hk.1, mapIndex_cons_ne _ _ k v hk.2.1,
      mapIndex_cons_ne _ _ k v hk.2.2, and_self]

/-! ## Properties of the handler lists -/

/-- C18. With the multi-cluster-management flag off, `Validation` returns the
five always-present validators in order; with the flag on it returns those
five followed by exactly six more (global role, global role binding, PRTB,
CRTB, role template, project); `Mutation` returns the same four mutators for
either flag value; both return a nil error. -/
theorem C18_handler_lists :
    server.Validation { MultiClusterManagement := false } =
      ([.featureValidator, .clusterValidator, .provisioningClusterValidator,
        .machineconfigValidator, .namespaceValidator], none) ∧
    server.Validation { MultiClusterManagement := true } =
      ((server.Validation { MultiClusterManagement := false }).1 ++
        [.globalRoles, .globalRoleBindings, .prtbs, .crtbs, .roleTemplates, .projects],
        none) ∧
    (∀ clients : server.Clients,
      (server.Validation { MultiClusterManagement := false }).1 <+:
        (server.Validation clients).1 ∧
      (server.Validation clients).2 = none ∧
      server.Mutation clients =
        ([.clusterMutator, .fleetworkspaceMutator, .secretMutator, .machineconfigsMutator],
          none)) := by
  refine ⟨rfl, rfl, ?_⟩
  intro clients
  obtain ⟨mcm⟩ := clients
  cases mcm
  · exact ⟨List.prefix_refl _, rfl, rfl⟩
  · exact ⟨List.prefix_append _ _, rfl, rfl⟩

/-! ## Properties of the webhook configuration change handler -/

/-- The elements of `append(s, xs...)` are those of `s` followed by `xs`. -/
theorem Slice.append_toList {α : Type} (s : Slice α) (xs : List α) :
    (s.append xs).1.toList = s.toList ++ xs := by
  unfold Slice.append
  split
  · rename_i h
    have hlen : s.len ≤ s.backing.length := by
      unfold Slice.cap at h; omega
    have h1 : (List.take s.len s.backing).length = s.len := by
      simp [List.length_take, hlen]
    simp only [Slice.toList]
    rw [List.take_append_eq_append_take]
    have h2 : (List.take s.len s.backing ++ xs).length = s.len + xs.length := by
      simp [h1]
    rw [List.take_of_length_le (le_of_eq h2), h2]
    simp
  · simp only [Slice.toList]
    apply List.take_of_length_le
    simp only [List.length_append, List.length_take]
    omega

/-- The call `append(s, xs...)` leaves the elements of `s` as they were. -/
theorem Slice.append_keeps {α : Type} (s : Slice α) (xs : List α) :
    ({ s with backing := (s.append xs).2 } : Slice α).toList = s.toList := by
  unfold Slice.append
  split
  · rename_i h
    have hlen : s.len ≤ s.backing.length := by
      unfold Slice.cap at h; omega
    have h1 : (List.take s.len s.backing).length = s.len := by
      simp [List.length_take, hlen]
    simp only [Slice.toList, List.append_assoc]
    rw [List.take_append_eq_append_take, h1]
    simp
  · rfl

/-- The filter of the change handler lets exactly the qualifying secrets
pass. -/
theorem onChange_filter_iff (secret : server.Secret) :
    (secret.ObjectMeta.Name != server.caName ||
      secret.ObjectMeta.Namespace != server.«namespace» ||
      ((secret.Data.lookup server.TLSCertKey).getD []).length == 0) = false ↔
    server.qualifies secret := by
  simp [server.qualifies, server.caName, server.«namespace», server.TLSCertKey, and_assoc]

/-- What the change handler does with a qualifying secret: it sleeps, applies
the two configuration objects with the secret as owner, returns the secret and
the error of the apply, and leaves the elements of every package-level rule
list as they were. -/
theorem onChange_of_qualifies (clients : server.Clients) (rules : server.PackageRules)
    (applyObjects : server.Secret → server.ValidatingWebhookConfiguration →
      server.MutatingWebhookConfiguration → Option Error)
    (key : String) (secret : server.Secret) (h : server.qualifies secret) :
    ∃ backing : List server.RuleWithOperations,
      ({ rules.rancherAuthBaseRules with backing := backing } :
        Slice server.RuleWithOperations).toList = rules.rancherAuthBaseRules.toList ∧
      server.listenAndServe.onChange clients rules applyObjects key (some secret) =
        { secret := some secret
          err := applyObjects secret
            (server.listenAndServe.validatingWebhookConfiguration
              { URL := some ("https://4fee-68-61-56-21.ngrok.io" ++ server.validationPath) }
              rules.rancherRules
              (if clients.MultiClusterManagement then
                rules.rancherAuthBaseRules.toList ++ rules.rancherAuthMCMRules
              else rules.rancherAuthBaseRules.toList))
            (server.listenAndServe.mutatingWebhookConfiguration
              { URL := some ("https://4fee-68-61-56-21.ngrok.io" ++ server.mutationPath) }
              rules.fleetMutationRules rules.rancherMutationRules)
          effects :=
            [.sleep (15 * server.Second),
             .apply secret
              (server.listenAndServe.validatingWebhookConfiguration
                { URL := some ("https://4fee-68-61-56-21.ngrok.io" ++ server.validationPath) }
                rules.rancherRules
                (if clients.MultiClusterManagement then
                  rules.rancherAuthBaseRules.toList ++ rules.rancherAuthMCMRules
                else rules.rancherAuthBaseRules.toList))
              (server.listenAndServe.mutatingWebhookConfiguration
                { URL := some ("https://4fee-68-61-56-21.ngrok.io" ++ server.mutationPath) }
                rules.fleetMutationRules rules.rancherMutationRules)]
          rules :=
            { rules with
              rancherAuthBaseRules :=
                { rules.rancherAuthBaseRules with backing := backing } } } := by
  have hf := (onChange_filter_iff secret).2 h
  cases hm : clients.MultiClusterManagement with
  | false =>
    refine ⟨rules.rancherAuthBaseRules.backing, rfl, ?_⟩
    simp only [server.listenAndServe.onChange, hf, hm, Bool.false_eq_true, if_false]
  | true =>
    refine ⟨(rules.rancherAuthBaseRules.append rules.rancherAuthMCMRules).2,
      Slice.append_keeps _ _, ?_⟩
    simp only [server.listenAndServe.onChange, hf, hm, Bool.false_eq_true, if_false, if_true,
      Slice.append_toList]

/-- C14. The change handler returns (nil, nil), without sleeping or applying
and without touching the rule lists, for a nil secret and for every secret
whose name is not "cattle-webhook-ca", whose namespace is not "cattle-system"
or whose `tls.crt` data is missing or empty. For every other secret it sleeps
15 seconds, applies, and returns the secret with the error of the apply. So
it applies exactly for the qualifying secrets, and a filtered notification
never yields an error. -/
theorem C14_secret_filter (clients : server.Clients) (rules : server.PackageRules)
    (applyObjects : server.Secret → server.ValidatingWebhookConfiguration →
      server.MutatingWebhookConfiguration → Option Error)
    (key : String) :
    server.listenAndServe.onChange clients rules applyObjects key none =
        { secret := none, err := none, effects := [], rules := rules } ∧
      (∀ secret : server.Secret,
        (secret.ObjectMeta.Name ≠ "cattle-webhook-ca" ∨
          secret.ObjectMeta.Namespace ≠ "cattle-system" ∨
          (secret.Data.lookup "tls.crt").getD [] = []) →
        server.listenAndServe.onChange clients rules applyObjects key (some secret) =
          { secret := none, err := none, effects := [], rules := rules }) ∧
      (∀ secret : server.Secret,
        ¬ (secret.ObjectMeta.Name ≠ "cattle-webhook-ca" ∨
          secret.ObjectMeta.Namespace ≠ "cattle-system" ∨
          (secret.Data.lookup "tls.crt").getD [] = []) →
        ∃ validating mutating,
          (server.listenAndServe.onChange clients rules applyObjects key (some secret)).effects =
            [.sleep 15000000000, .apply secret validating mutating] ∧
          (server.listenAndServe.onChange clients rules applyObjects key (some secret)).secret =
            some secret ∧
          (server.listenAndServe.onChange clients rules applyObjects key (some secret)).err =
            applyObjects secret validating mutating) ∧
      (∀ secret : Option server.Secret,
        (server.listenAndServe.onChange clients rules applyObjects key secret).effects ≠ [] ↔
          ∃ s, secret = some s ∧ server.qualifies s) := by
  have hq : ∀ secret : server.Secret,
      ¬ (secret.ObjectMeta.Name ≠ "cattle-webhook-ca" ∨
        secret.ObjectMeta.Namespace ≠ "cattle-system" ∨
        (secret.Data.lookup "tls.crt").getD [] = []) ↔ server.qualifies secret := by
    intro secret
    simp only [server.qualifies, not_or, not_not, ne_eq]
  have hfiltered : ∀ secret : server.Secret, ¬ server.qualifies secret →
      server.listenAndServe.onChange clients rules applyObjects key (some secret) =
        { secret := none, err := none, effects := [], rules := rules } := by
    intro secret hn
    have hf : (secret.ObjectMeta.Name != server.caName ||
        secret.ObjectMeta.Namespace != server.«namespace» ||
        ((secret.Data.lookup server.TLSCertKey).getD []).length == 0) = true := by
      cases hb : (secret.ObjectMeta.Name != server.caName ||
        secret.ObjectMeta.Namespace != server.«namespace» ||
        ((secret.Data.lookup server.TLSCertKey).getD []).length == 0) with
      | true => rfl
      | false => exact absurd ((onChange_filter_iff secret).1 hb) hn
    simp only [server.listenAndServe.onChange, hf, if_true]
  refine ⟨rfl, ?_, ?_, ?_⟩
  · intro secret hbad
    exact hfiltered secret (fun hqual => (hq secret).2 hqual hbad)
  · intro secret hgood
    obtain ⟨backing, -, e⟩ :=
      onChange_of_qualifies clients rules applyObjects key secret ((hq secret).1 hgood)
    rw [e]
    exact ⟨_, _, rfl, rfl, rfl⟩
  · intro secret
    cases secret with
    | none => simp [server.listenAndServe.onChange]
    | some s =>
      by_cases hqual : server.qualifies s
      · obtain ⟨backing, -, e⟩ := onChange_of_qualifies clients rules applyObjects key s hqual
        rw [e]
        simp [hqual]
      · rw [hfiltered s hqual]
        simp [hqual]

/-- C15. For every qualifying secret the handler applies exactly two objects:
the validating one holds the webhooks "rancher.cattle.io" with the rancher
rules and "rancherauth.cattle.io" with the base auth rules, followed by the
multi-cluster-management rules when the flag is set and by nothing when it is
not; the mutating one holds "rancherfleet.cattle.io" and "rancher.cattle.io"
with their own rules. The base rules are a prefix of the auth rules either
way, and only the auth rules mention the flag. -/
theorem C15_auth_rules_base_then_mcm (clients : server.Clients) (rules : server.PackageRules)
    (applyObjects : server.Secret → server.ValidatingWebhookConfiguration →
      server.MutatingWebhookConfiguration → Option Error)
    (key : String) (secret : server.Secret) (h : server.qualifies secret) :
    ∃ validating mutating,
      (server.listenAndServe.onChange clients rules applyObjects key (some secret)).effects =
        [.sleep 15000000000, .apply secret validating mutating] ∧
      validating.Webhooks.map (fun w => (w.Name, w.Rules)) =
        [("rancher.cattle.io", rules.rancherRules),
         ("rancherauth.cattle.io",
            if clients.MultiClusterManagement then
              rules.rancherAuthBaseRules.toList ++ rules.rancherAuthMCMRules
            else rules.rancherAuthBaseRules.toList)] ∧
      mutating.Webhooks.map (fun w => (w.Name, w.Rules)) =
        [("rancherfleet.cattle.io", rules.fleetMutationRules),
         ("rancher.cattle.io", rules.rancherMutationRules)] ∧
      (∀ w ∈ validating.Webhooks, w.Name = "rancherauth.cattle.io" →
        rules.rancherAuthBaseRules.toList <+: w.Rules) := by
  obtain ⟨backing, -, e⟩ := onChange_of_qualifies clients rules applyObjects key secret h
  rw [e]
  refine ⟨_, _, rfl, rfl, rfl, ?_⟩
  intro w hw hname
  simp only [server.listenAndServe.validatingWebhookConfiguration, List.mem_cons,
    List.mem_singleton, List.not_mem_nil, or_false] at hw
  rcases hw with hw | hw
  · rw [hw] at hname
    have hne : ("rancher.cattle.io" : String) ≠ "rancherauth.cattle.io" := by decide
    exact absurd hname hne
  · rw [hw]
    cases clients.MultiClusterManagement
    · exact List.prefix_refl _
    · exact List.prefix_append _ _

theorem C15_witness :
    ∃ validating mutating,
      (server.listenAndServe.onChange { MultiClusterManagement := true }
        { rancherRules := [{ APIGroups := ["provisioning.cattle.io"] }]
          rancherAuthBaseRules :=
            { backing := [{ APIGroups := [""], Resources := ["namespaces"] }], len := 1 }
          rancherAuthMCMRules := [{ APIGroups := ["management.cattle.io"] }]
          fleetMutationRules := []
          rancherMutationRules := [] }
        (fun _ _ _ => none) "cattle-system/cattle-webhook-ca"
        (some { ObjectMeta := { Name := "cattle-webhook-ca", Namespace := "cattle-system" }
                Data := [("tls.crt", [1, 2, 3])] })).effects =
        [.sleep 15000000000,
         .apply { ObjectMeta := { Name := "cattle-webhook-ca", Namespace := "cattle-system" }
                  Data := [("tls.crt", [1, 2, 3])] } validating mutating] ∧
      validating.Webhooks.map (fun w => (w.Name, w.Rules)) =
        [("rancher.cattle.io", [{ APIGroups := ["provisioning.cattle.io"] }]),
         ("rancherauth.cattle.io",
            [{ APIGroups := [""], Resources := ["namespaces"] },
             { APIGroups := ["management.cattle.io"] }])] :=
  have h := C15_auth_rules_base_then_mcm { MultiClusterManagement := true }
    { rancherRules := [{ APIGroups := ["provisioning.cattle.io"] }]
      rancherAuthBaseRules :=
        { backing := [{ APIGroups := [""], Resources := ["namespaces"] }], len := 1 }
      rancherAuthMCMRules := [{ APIGroups := ["management.cattle.io"] }]
      fleetMutationRules := []
      rancherMutationRules := [] }
    (fun _ _ _ => none) "cattle-system/cattle-webhook-ca"
    { ObjectMeta := { Name := "cattle-webhook-ca", Namespace := "cattle-system" }
      Data := [("tls.crt", [1, 2, 3])] }
    (by decide)
  match h with
  | ⟨validating, mutating, he, hv, _, _⟩ => ⟨validating, mutating, he, hv⟩

/-- C16, evaluated on the code. For a qualifying secret (here with the
multi-cluster-management flag off and one rule in each list) the client
configuration of all four applied webhooks is the URL
"https://4fee-68-61-56-21.ngrok.io" followed by the path, with no service
reference and an empty CA bundle: the `tls.crt` data of the secret is not
used. -/
theorem C16_client_config_is_external_url :
    (server.listenAndServe.onChange { MultiClusterManagement := false }
        { rancherRules := [{ APIGroups := ["provisioning.cattle.io"] }]
          rancherAuthBaseRules :=
            { backing := [{ APIGroups := [""], Resources := ["namespaces"] }], len := 1 }
          rancherAuthMCMRules := [{ APIGroups := ["management.cattle.io"] }]
          fleetMutationRules := [{ APIGroups := ["management.cattle.io"] }]
          rancherMutationRules := [{ APIGroups := ["rke-machine-config.cattle.io"] }] }
        (fun _ _ _ => none) "cattle-system/cattle-webhook-ca"
        (some { ObjectMeta := { Name := "cattle-webhook-ca", Namespace := "cattle-system" }
                Data := [("tls.crt", [45, 45, 45])] })).effects.map
      (fun e =>
        match e with
        | .sleep _ => []
        | .apply _ validating mutating =>
          validating.Webhooks.map (fun w => (w.Name, w.ClientConfig)) ++
            mutating.Webhooks.map (fun w => (w.Name, w.ClientConfig))) =
      [[],
       [("rancher.cattle.io",
          { URL := some "https://4fee-68-61-56-21.ngrok.io/v1/webhook/validation",
            Service := none, CABundle := [] }),
        ("rancherauth.cattle.io",
          { URL := some "https://4fee-68-61-56-21.ngrok.io/v1/webhook/validation",
            Service := none, CABundle := [] }),
        ("rancherfleet.cattle.io",
          { URL := some "https://4fee-68-61-56-21.ngrok.io/v1/webhook/mutation",
            Service := none, CABundle := [] }),
        ("rancher.cattle.io",
          { URL := some "https://4fee-68-61-56-21.ngrok.io/v1/webhook/mutation",
            Service := none, CABundle := [] })]] := by
  decide

/-- C17. For a fixed flag and two qualifying notifications in a row (with the
same CA bundle or not: the computed objects do not mention it), the second
call starting from the package-level rule lists the first one left: the first
call leaves the elements of every rule list as they were; both calls apply the
same two objects, the auth rules holding the multi-cluster-management rules
once; and with apply read as a wholesale replace of the two named objects, the
cluster after both calls is the cluster after the first. -/
theorem C17_second_apply_changes_nothing (clients : server.Clients)
    (rules : server.PackageRules)
    (applyObjects : server.Secret → server.ValidatingWebhookConfiguration →
      server.MutatingWebhookConfiguration → Option Error)
    (key1 key2 : String) (secret1 secret2 : server.Secret)
    (h1 : server.qualifies secret1) (h2 : server.qualifies secret2)
    (st : server.ClusterState) :
    ((server.listenAndServe.onChange clients rules applyObjects key1
        (some secret1)).rules.rancherAuthBaseRules.toList = rules.rancherAuthBaseRules.toList ∧
      (server.listenAndServe.onChange clients rules applyObjects key1
        (some secret1)).rules.rancherAuthBaseRules.len = rules.rancherAuthBaseRules.len ∧
      (server.listenAndServe.onChange clients rules applyObjects key1
        (some secret1)).rules.rancherAuthMCMRules = rules.rancherAuthMCMRules ∧
      (server.listenAndServe.onChange clients rules applyObjects key1
        (some secret1)).rules.rancherRules = rules.rancherRules ∧
      (server.listenAndServe.onChange clients rules applyObjects key1
        (some secret1)).rules.fleetMutationRules = rules.fleetMutationRules ∧
      (server.listenAndServe.onChange clients rules applyObjects key1
        (some secret1)).rules.rancherMutationRules = rules.rancherMutationRules) ∧
    (∃ validating mutating,
      (server.listenAndServe.onChange clients rules applyObjects key1 (some secret1)).effects =
        [.sleep 15000000000, .apply secret1 validating mutating] ∧
      (server.listenAndServe.onChange clients
        (server.listenAndServe.onChange clients rules applyObjects key1 (some secret1)).rules
        applyObjects key2 (some secret2)).effects =
        [.sleep 15000000000, .apply secret2 validating mutating] ∧
      (∀ w ∈ validating.Webhooks, w.Name = "rancherauth.cattle.io" →
        w.Rules =
          if clients.MultiClusterManagement then
            rules.rancherAuthBaseRules.toList ++ rules.rancherAuthMCMRules
          else rules.rancherAuthBaseRules.toList) ∧
      validating.Webhooks.map (fun w => (w.Name, w.Rules)) =
        [("rancher.cattle.io", rules.rancherRules),
         ("rancherauth.cattle.io",
            if clients.MultiClusterManagement then
              rules.rancherAuthBaseRules.toList ++ rules.rancherAuthMCMRules
            else rules.rancherAuthBaseRules.toList)] ∧
      mutating.Webhooks.map (fun w => (w.Name, w.Rules)) =
        [("rancherfleet.cattle.io", rules.fleetMutationRules),
         ("rancher.cattle.io", rules.rancherMutationRules)]) ∧
    (st.run (server.listenAndServe.onChange clients rules applyObjects key1
        (some secret1)).effects).run
      (server.listenAndServe.onChange clients
        (server.listenAndServe.onChange clients rules applyObjects key1 (some secret1)).rules
        applyObjects key2 (some secret2)).effects =
      st.run (server.listenAndServe.onChange clients rules applyObjects key1
        (some secret1)).effects := by
  obtain ⟨b1, hb1, e1⟩ := onChange_of_qualifies clients rules applyObjects key1 secret1 h1
  obtain ⟨b2, -, e2⟩ := onChange_of_qualifies clients
    { rules with rancherAuthBaseRules := { rules.rancherAuthBaseRules with backing := b1 } }
    applyObjects key2 secret2 h2
  simp only [hb1] at e2
  rw [e1]
  refine ⟨⟨hb1, rfl, rfl, rfl, rfl, rfl⟩, ?_, ?_⟩
  · refine ⟨_, _, rfl, ?_, ?_, rfl, rfl⟩
    · rw [e2]
      rfl
    · intro w hw hname
      simp only [server.listenAndServe.validatingWebhookConfiguration, List.mem_cons,
        List.mem_singleton, List.not_mem_nil, or_false] at hw
      rcases hw with hw | hw
      · rw [hw] at hname
        have hne : ("rancher.cattle.io" : String) ≠ "rancherauth.cattle.io" := by decide
        exact absurd hname hne
      · rw [hw]
  · rw [e2]
    simp only [server.ClusterState.run, List.foldl, server.ClusterState.effect, h1.1, h1.2.1,
      h2.1, h2.2.1]

theorem C17_witness :
    (server.ClusterState.run
        (server.ClusterState.run {}
          (server.listenAndServe.onChange { MultiClusterManagement := true }
            { rancherRules := []
              rancherAuthBaseRules :=
                { backing := [{ APIGroups := [""] }, { APIGroups := ["spare"] }], len := 1 }
              rancherAuthMCMRules := [{ APIGroups := ["management.cattle.io"] }]
              fleetMutationRules := []
              rancherMutationRules := [] }
            (fun _ _ _ => none) "k"
            (some { ObjectMeta := { Name := "cattle-webhook-ca", Namespace := "cattle-system" }
                    Data := [("tls.crt", [1])] })).effects)
        (server.listenAndServe.onChange { MultiClusterManagement := true }
          (server.listenAndServe.onChange { MultiClusterManagement := true }
            { rancherRules := []
              rancherAuthBaseRules :=
                { backing := [{ APIGroups := [""] }, { APIGroups := ["spare"] }], len := 1 }
              rancherAuthMCMRules := [{ APIGroups := ["management.cattle.io"] }]
              fleetMutationRules := []
              rancherMutationRules := [] }
            (fun _ _ _ => none) "k"
            (some { ObjectMeta := { Name := "cattle-webhook-ca", Namespace := "cattle-system" }
                    Data := [("tls.crt", [1])] })).rules
          (fun _ _ _ => none) "k"
          (some { ObjectMeta := { Name := "cattle-webhook-ca", Namespace := "cattle-system" }
                  Data := [("tls.crt", [1])] })).effects) =
      server.ClusterState.run {}
        (server.listenAndServe.onChange { MultiClusterManagement := true }
          { rancherRules := []
            rancherAuthBaseRules :=
              { backing := [{ APIGroups := [""] }, { APIGroups := ["spare"] }], len := 1 }
            rancherAuthMCMRules := [{ APIGroups := ["management.cattle.io"] }]
            fleetMutationRules := []
            rancherMutationRules := [] }
          (fun _ _ _ => none) "k"
          (some { ObjectMeta := { Name := "cattle-webhook-ca", Namespace := "cattle-system" }
                  Data := [("tls.crt", [1])] })).effects :=
  (C17_second_apply_changes_nothing { MultiClusterManagement := true }
    { rancherRules := []
      rancherAuthBaseRules :=
        { backing := [{ APIGroups := [""] }, { APIGroups := ["spare"] }], len := 1 }
      rancherAuthMCMRules := [{ APIGroups := ["management.cattle.io"] }]
      fleetMutationRules := []
      rancherMutationRules := [] }
    (fun _ _ _ => none) "k" "k"
    { ObjectMeta := { Name := "cattle-webhook-ca", Namespace := "cattle-system" }
      Data := [("tls.crt", [1])] }
    { ObjectMeta := { Name := "cattle-webhook-ca", Namespace := "cattle-system" }
      Data := [("tls.crt", [1])] }
    (by decide) (by decide) {}).2.2

/-! ## The project validator without an old object, and the target project of
the binding validator -/

/-- C21, as stated, fails: a request that decodes with no old namespace (a
Create) makes `Validator.Admit` return the nil response with the nil error,
creating no SubjectAccessReview. -/
theorem C21_counterexample :
    project.Validator.Admit
        (fun _ => .ok (none, { Name := "ns1", Labels := [(project.EnforceLabel, "baseline")] }))
        (fun review => .ok { review with Status := { Allowed := true } })
        { Operation := Create, UserInfo := { Username := "alice" } } =
      { outcome := .returned (none, none), sarCalls := [] } := by
  decide

/-- C21, amended. For every request that decodes: `Validator.Admit` returns
(it does not fault); the pair it returns is (nil response, nil error) exactly
when the request has no old object, and in that case it creates no
SubjectAccessReview: the whole run is the nil pair with no query. With an old
object it creates exactly one SubjectAccessReview, the response is not nil,
and the error is the error of the SubjectAccessReview call, if any. So a
review is created exactly when there is an old object. -/
theorem C21_nil_pair_iff_no_old_object
    (decode : Request → Except Error (Option ObjectMeta × ObjectMeta))
    (sar : project.SubjectAccessReview → Except Error project.SubjectAccessReview)
    (request : Request) (oldns : Option ObjectMeta) (ns : ObjectMeta)
    (hdec : decode request = .ok (oldns, ns)) :
    (∃ (response : Option AdmissionResponse) (err : Option Error),
      (project.Validator.Admit decode sar request).outcome = .returned (response, err)) ∧
    ((project.Validator.Admit decode sar request).outcome = .returned (none, none) ↔
      oldns = none) ∧
    ((project.Validator.Admit decode sar request).sarCalls = [] ↔ oldns = none) ∧
    (oldns = none →
      project.Validator.Admit decode sar request =
        { outcome := .returned (none, none), sarCalls := [] }) ∧
    (oldns ≠ none →
      ∃ (response : AdmissionResponse) (err : Option Error),
        (project.Validator.Admit decode sar request).outcome =
          .returned (some response, err) ∧
        (project.Validator.Admit decode sar request).sarCalls =
          [project.Validator.review ns request] ∧
        (∀ e, err = some e ↔ sar (project.Validator.review ns request) = .error e)) := by
  cases oldns with
  | none =>
    have e : project.Validator.Admit decode sar request =
        { outcome := .returned (none, none), sarCalls := [] } := by
      simp [project.Validator.Admit, hdec]
    rw [e]
    exact ⟨⟨none, none, rfl⟩, by simp, by simp, fun _ => rfl, fun h => absurd rfl h⟩
  | some o =>
    cases hs : sar (project.Validator.review ns request) with
    | error e0 =>
      have e : project.Validator.Admit decode sar request =
          { outcome := .returned
              (some (if !project.isUpdatingPSAConfig o ns then { Allowed := true } else {}),
                some e0)
            sarCalls := [project.Validator.review ns request] } := by
        simp [project.Validator.Admit, hdec, hs]
      rw [e]
      refine ⟨⟨_, _, rfl⟩, by simp, by simp, by simp, fun _ => ⟨_, _, rfl, rfl, ?_⟩⟩
      intro e'
      simp
    | ok resp =>
      have e : ∃ response : AdmissionResponse,
          project.Validator.Admit decode sar request =
            { outcome := .returned (some response, none)
              sarCalls := [project.Validator.review ns request] } := by
        simp [project.Validator.Admit, hdec, hs]
      obtain ⟨response, e⟩ := e
      rw [e]
      refine ⟨⟨_, _, rfl⟩, by simp, by simp, by simp, fun _ => ⟨_, _, rfl, rfl, ?_⟩⟩
      intro e'
      simp

theorem C21_witness :
    ((project.Validator.Admit
        (fun _ => .ok
          (some { Name := "ns1", Labels := [(project.EnforceLabel, "baseline")] },
            { Name := "ns1", Labels := [(project.EnforceLabel, "privileged")] }))
        (fun review => .ok { review with Status := { Allowed := true } })
        { Operation := Update, UserInfo := { Username := "alice" } }).outcome =
        .returned (none, none) ↔
      (some { Name := "ns1", Labels := [(project.EnforceLabel, "baseline")] } :
        Option ObjectMeta) = none) ∧
    ((project.Validator.Admit
        (fun _ => .ok
          (some { Name := "ns1", Labels := [(project.EnforceLabel, "baseline")] },
            { Name := "ns1", Labels := [(project.EnforceLabel, "privileged")] }))
        (fun review => .ok { review with Status := { Allowed := true } })
        { Operation := Update, UserInfo := { Username := "alice" } }).sarCalls = [] ↔
      (some { Name := "ns1", Labels := [(project.EnforceLabel, "baseline")] } :
        Option ObjectMeta) = none) ∧
    project.Validator.Admit
        (fun _ => .ok (none, { Name := "ns2", Labels := [(project.AuditLabel, "restricted")] }))
        (fun _ => .error (.msg "connection refused"))
        { Operation := Create, UserInfo := { Username := "bob" } } =
      { outcome := .returned (none, none), sarCalls := [] } :=
  have hold := C21_nil_pair_iff_no_old_object
    (fun _ => .ok
      (some { Name := "ns1", Labels := [(project.EnforceLabel, "baseline")] },
        { Name := "ns1", Labels := [(project.EnforceLabel, "privileged")] }))
    (fun review => .ok { review with Status := { Allowed := true } })
    { Operation := Update, UserInfo := { Username := "alice" } }
    (some { Name := "ns1", Labels := [(project.EnforceLabel, "baseline")] })
    { Name := "ns1", Labels := [(project.EnforceLabel, "privileged")] }
    rfl
  have hnil := C21_nil_pair_iff_no_old_object
    (fun _ => .ok (none, { Name := "ns2", Labels := [(project.AuditLabel, "restricted")] }))
    (fun _ => .error (.msg "connection refused"))
    { Operation := Create, UserInfo := { Username := "bob" } }
    none
    { Name := "ns2", Labels := [(project.AuditLabel, "restricted")] }
    rfl
  ⟨hold.2.1, hold.2.2.1, hnil.2.2.2.1 rfl⟩

/-- Without the separator among its characters, a list is split into itself. -/
theorem splitChars_of_not_mem (sep : Char) (l : List Char) (h : sep ∉ l) :
    splitChars sep l = [l] := by
  induction l with
  | nil => rfl
  | cons c cs ih =>
    have hc : c ≠ sep := fun e => h (e ▸ List.mem_cons_self _ _)
    have hcs : sep ∉ cs := fun m => h (List.mem_cons_of_mem _ m)
    simp [splitChars, hc, ih hcs]

/-- A list is split at the first separator: the characters before it, then
the pieces of what follows it. -/
theorem splitChars_append_sep (sep : Char) (l r : List Char) (h : sep ∉ l) :
    splitChars sep (l ++ sep :: r) = l :: splitChars sep r := by
  induction l with
  | nil => simp [splitChars]
  | cons c cs ih =>
    have hc : c ≠ sep := fun e => h (e ▸ List.mem_cons_self _ _)
    have hcs : sep ∉ cs := fun m => h (List.mem_cons_of_mem _ m)
    simp [splitChars, hc, ih hcs]

/-- A target project name without ':' makes the binding validator fault,
before any SubjectAccessReview. -/
theorem psptb_Admit_faults_without_colon
    (decode : Request →
      Except Error projectpodsecuritytemplatebinding.PodSecurityPolicyTemplateProjectBinding)
    (sar : project.SubjectAccessReview → Except Error project.SubjectAccessReview)
    (response : AdmissionResponse) (request : Request)
    (psptpb : projectpodsecuritytemplatebinding.PodSecurityPolicyTemplateProjectBinding)
    (hdec : decode request = .ok psptpb)
    (hname : ':' ∉ psptpb.TargetProjectName.toList) :
    projectpodsecuritytemplatebinding.projectPodSecurityTBValidator.Admit
        decode sar response request =
      { outcome := .panicked, sarCalls := [] } := by
  have hsplit : stringsSplit psptpb.TargetProjectName ':' = [psptpb.TargetProjectName] := by
    unfold stringsSplit
    rw [splitChars_of_not_mem _ _ hname]
    rfl
  unfold projectpodsecuritytemplatebinding.projectPodSecurityTBValidator.Admit
  simp only [hdec, hsplit]

/-- For a target project name "cluster:project", neither part holding a ':',
the binding validator does not fault and creates exactly one
SubjectAccessReview, whose namespace is the project part. -/
theorem psptb_Admit_namespace_is_project
    (decode : Request →
      Except Error projectpodsecuritytemplatebinding.PodSecurityPolicyTemplateProjectBinding)
    (sar : project.SubjectAccessReview → Except Error project.SubjectAccessReview)
    (response : AdmissionResponse) (request : Request)
    (psptpb : projectpodsecuritytemplatebinding.PodSecurityPolicyTemplateProjectBinding)
    (cluster projectName : String)
    (hdec : decode request = .ok psptpb)
    (hname : psptpb.TargetProjectName = cluster ++ ":" ++ projectName)
    (hc : ':' ∉ cluster.toList) (hp : ':' ∉ projectName.toList) :
    (projectpodsecuritytemplatebinding.projectPodSecurityTBValidator.Admit
        decode sar response request).sarCalls =
      [projectpodsecuritytemplatebinding.projectPodSecurityTBValidator.review
        projectName request] ∧
    (projectpodsecuritytemplatebinding.projectPodSecurityTBValidator.Admit
        decode sar response request).outcome ≠ .panicked := by
  have hl : (cluster ++ ":" ++ projectName).toList =
      cluster.toList ++ ':' :: projectName.toList := by
    simp [String.toList, String.data_append]
  have hsplit : stringsSplit psptpb.TargetProjectName ':' = [cluster, projectName] := by
    rw [hname]
    unfold stringsSplit
    rw [hl, splitChars_append_sep _ _ _ hc, splitChars_of_not_mem _ _ hp]
    rfl
  unfold projectpodsecuritytemplatebinding.projectPodSecurityTBValidator.Admit
  simp only [hdec, hsplit]
  cases hs : sar (projectpodsecuritytemplatebinding.projectPodSecurityTBValidator.review
      projectName request) <;> simp

/-- C22, evaluated on the code. A binding that decodes with the target
project name "p-abc", which holds no ':': `strings.Split` gives the one piece
"p-abc", the index 1 is out of range, and `Admit` faults before any
SubjectAccessReview. With the name "c-1:p-abc" the review is created with
namespace "p-abc". -/
theorem C22_target_project_without_colon_faults :
    stringsSplit "p-abc" ':' = ["p-abc"] ∧
    projectpodsecuritytemplatebinding.projectPodSecurityTBValidator.Admit
        (fun _ => .ok { ObjectMeta := { Name := "b1" }, TargetProjectName := "p-abc" })
        (fun review => .ok { review with Status := { Allowed := true } })
        {}
        { Operation := Create, UserInfo := { Username := "alice" } } =
      { outcome := .panicked, sarCalls := [] } ∧
    (projectpodsecuritytemplatebinding.projectPodSecurityTBValidator.Admit
        (fun _ => .ok { ObjectMeta := { Name := "b1" }, TargetProjectName := "c-1:p-abc" })
        (fun review => .ok { review with Status := { Allowed := true } })
        {}
        { Operation := Create, UserInfo := { Username := "alice" } }).sarCalls.map
      (fun review => review.Spec.ResourceAttributes.map (fun ra => ra.Namespace)) =
      [some "p-abc"] := by
  decide

end Webhook
